import Mathlib

/-!
# NebulaNet: session store, feed hook, screens and error services

A shallow embedding of `src/store/useStore.js` (the zustand store), of
`src/hooks/useFeed.js` (the paginated feed hook), of the list logic of
`src/screens/post/CommentsScreen.js` and `src/screens/chat/ChatDetailScreen.js`,
of the auth listener of `src/App.js`, of the error classification in
`src/services/api.js` and `src/services/errorHandler.js`, and of the
validation in `src/services/imageUpload.js` and
`src/screens/EditProfileScreen.js`, followed by the properties proved about
them.

Modelling conventions.

* A JavaScript value is a `JsVal`. Numbers are integers (ids, counters and page
  indexes are the only numbers the modelled code touches); arithmetic and the
  string form are defined on the integers up to 2^53 in absolute value, where
  every integer is a double.
* A row (post, notification, message, ...) is an `Obj`: the list of its own
  properties in insertion order. `Obj.get` is property access, `Obj.spread`
  is the object spread `{...a, ...b}`.
* `===` is `JsVal.strictEq`: value equality on primitives. Two object or array
  values are treated as distinct references.
* A zustand action `set(f)` is a function `Store → Store` that replaces the
  fields `f` returns and keeps every other field.
* An `await` splits an async function in the part before it and the part
  after it; the awaited result is an explicit argument of the second part.
* A function returns an `Option` where JavaScript throws, or where an
  expression leaves the values of the model (a `NaN`, the string form of an
  object); `none` is that case.
* A React effect is a function on the realtime client that yields the client
  after the callback and the cleanup the callback returned, if any.
-/

namespace NebulaNet

/-! ## JavaScript values -/

/-- JavaScript values that occur in rows and in the store. -/
inductive JsVal where
  | undefined
  | null
  | bool (b : Bool)
  | num (n : Int)
  | str (s : String)
  | arr (items : List JsVal)
  | obj (fields : List (String × JsVal))
  deriving Repr

namespace JsVal

/-- Truthiness, the result of `!!v`. -/
def truthy : JsVal → Bool
  | undefined => false
  | null => false
  | bool b => b
  | num n => n != 0
  | str s => s != ""
  | arr _ => true
  | obj _ => true

/-- Primitive values: everything but arrays and objects. -/
def isPrimitive : JsVal → Bool
  | arr _ => false
  | obj _ => false
  | _ => true

/-- Strict equality `a === b`: same type and same value for primitives;
arrays and objects are compared by reference and two values of the model
stand for two references. -/
def strictEq : JsVal → JsVal → Bool
  | undefined, undefined => true
  | null, null => true
  | bool a, bool b => a == b
  | num a, num b => a == b
  | str a, str b => a == b
  | _, _ => false

end JsVal

/-- A JavaScript object: its own properties, in insertion order. -/
abbrev Obj := List (String × JsVal)

namespace Obj

/-- Property access `o.k`: `undefined` when `o` has no property `k`. -/
def get (o : Obj) (k : String) : JsVal :=
  match o.find? (fun kv => kv.1 == k) with
  | some kv => kv.2
  | none => JsVal.undefined

/-- Assignment of one property: an existing property keeps its position and
takes the new value, a new property goes last. -/
def set : Obj → String → JsVal → Obj
  | [], k, v => [(k, v)]
  | (k', v') :: rest, k, v =>
    if k' == k then (k, v) :: rest else (k', v') :: set rest k v

/-- Object spread `{...a, ...b}`: the properties of `a`, then each property of
`b` assigned in order. -/
def spread (a b : Obj) : Obj :=
  b.foldl (fun acc kv => set acc kv.1 kv.2) a

/-- The `id` property of a row. -/
def id (o : Obj) : JsVal := get o "id"

/-- The test `row.id === x`. -/
def hasId (x : JsVal) (o : Obj) : Bool := JsVal.strictEq (id o) x

end Obj

/-- Number of rows of a list whose id is `x`. -/
def idCount (x : JsVal) (rows : List Obj) : Nat :=
  rows.countP (Obj.hasId x)

/-- No two rows of the list have the same id. -/
def DistinctIds (rows : List Obj) : Prop :=
  rows.Pairwise (fun a b => JsVal.strictEq (Obj.id a) (Obj.id b) = false)

instance (rows : List Obj) : Decidable (DistinctIds rows) := by
  unfold DistinctIds; infer_instance

/-! ## The store (`src/store/useStore.js`) -/

/-- State of the zustand store, lines 10-40. -/
structure Store where
  user : JsVal
  session : JsVal
  profile : JsVal
  isAuthenticated : Bool
  authLoading : Bool
  feed : List Obj
  feedPage : Nat
  feedHasMore : Bool
  feedLoading : Bool
  feedRefreshing : Bool
  notifications : List Obj
  unreadCount : Nat
  notificationsLoading : Bool
  conversations : List Obj
  activeConversation : JsVal
  messages : List Obj
  communities : List Obj
  joinedCommunities : List Obj
  theme : String
  bottomTabVisible : Bool
  deriving Repr

/-- Result of an awaited promise. -/
inductive Awaited (α : Type) where
  | resolved (value : α)
  | rejected (reason : JsVal)
  deriving Repr

namespace useStore

/-- The initial state, lines 10-40. -/
def initial : Store :=
  { user := .null, session := .null, profile := .null
    isAuthenticated := false, authLoading := true
    feed := [], feedPage := 0, feedHasMore := true
    feedLoading := false, feedRefreshing := false
    notifications := [], unreadCount := 0, notificationsLoading := false
    conversations := [], activeConversation := .null, messages := []
    communities := [], joinedCommunities := []
    theme := "light", bottomTabVisible := true }

/-- Action `setAuthState(user, session, profile)`, lines 43-49. -/
def setAuthState (user session profile : JsVal) (s : Store) : Store :=
  { s with
    user := user
    session := session
    profile := profile
    isAuthenticated := user.truthy
    authLoading := false }

/-- The `set` call of `logout`, lines 55-64. -/
def logoutSet (s : Store) : Store :=
  { s with
    user := .null
    session := .null
    profile := .null
    isAuthenticated := false
    feed := []
    notifications := []
    conversations := []
    messages := [] }

/-- Action `logout()`, lines 53-65: awaits `supabase.auth.signOut()`, whose
resolved value is ignored, then clears the state. A rejected `signOut` rejects
`logout` before the state is touched. -/
def logout (signOut : Awaited JsVal) (s : Store) : Except JsVal Store :=
  match signOut with
  | .resolved _ => .ok (logoutSet s)
  | .rejected e => .error e

/-- Action `setFeed(feed)`, line 72. -/
def setFeed (feed : List Obj) (s : Store) : Store :=
  { s with feed := feed }

/-- Action `addToFeed(posts)`, lines 73-75. -/
def addToFeed (posts : List Obj) (s : Store) : Store :=
  { s with feed := posts ++ s.feed }

/-- Action `appendToFeed(posts)`, lines 76-78. -/
def appendToFeed (posts : List Obj) (s : Store) : Store :=
  { s with feed := s.feed ++ posts }

/-- Action `updatePostInFeed(postId, updates)`, lines 79-83. -/
def updatePostInFeed (postId : JsVal) (updates : Obj) (s : Store) : Store :=
  { s with
    feed := s.feed.map (fun post =>
      if JsVal.strictEq (Obj.id post) postId then Obj.spread post updates else post) }

/-- The callback `n => !n.read_at` of the unread filters. -/
def isUnread (n : Obj) : Bool := !(Obj.get n "read_at").truthy

/-- Action `addNotification(notification)`, lines 98-104. -/
def addNotification (notification : Obj) (s : Store) : Store :=
  let newNotifications := notification :: s.notifications
  { s with
    notifications := newNotifications
    unreadCount := (newNotifications.filter isUnread).length }

/-- Action `addMessage(message)`, lines 126-128. -/
def addMessage (message : Obj) (s : Store) : Store :=
  { s with messages := s.messages ++ [message] }

end useStore

/-! ## The feed hook (`src/hooks/useFeed.js`) -/

/-- State cells of `useFeed`, lines 6-10. -/
structure FeedState where
  posts : List Obj
  loading : Bool
  refreshing : Bool
  page : Nat
  hasMore : Bool
  deriving Repr

/-- What the awaited query of `fetchPosts` (lines 21-32) produces: the
`{ data, error }` record of the client, `data` being `null` or an array of
rows, or a rejection. -/
inductive QueryResult where
  | response (data : Option (List Obj)) (error : JsVal)
  | rejected (reason : JsVal)
  deriving Repr

namespace useFeed

/-- The initial state, lines 6-10. -/
def initial : FeedState :=
  { posts := [], loading := true, refreshing := false, page := 0, hasMore := true }

/-- The range `(from, to)` that `fetchPosts(reset)` requests, lines 19 and 32;
`page` is the value the calling render saw. -/
def fetchPostsRange (reset : Bool) (s : FeedState) : Nat × Nat :=
  let start := if reset then 0 else s.page * 10
  (start, start + 9)

/-- The part of `fetchPosts(reset)` that runs before the await, lines 14-17. -/
def fetchPostsBegin (reset : Bool) (s : FeedState) : FeedState :=
  if reset then { s with loading := true, page := 0 } else s

/-- The part of `fetchPosts(reset)` that runs once the query has settled,
lines 34-49, applied to the state current at that moment. A truthy `error` or
a rejection goes to the `catch`; a `null` data without error passes
`setPosts(data || [])` and then throws at `data.length`; the `finally` block
runs in every case. -/
def fetchPostsResume (reset : Bool) (r : QueryResult) (s : FeedState) : FeedState :=
  let s1 : FeedState :=
    match r with
    | .rejected _ => s
    | .response data error =>
      if error.truthy then s
      else
        let rows := data.getD []
        let s2 : FeedState :=
          if reset then { s with posts := rows } else { s with posts := s.posts ++ rows }
        match data with
        | none => s2
        | some d => { s2 with hasMore := d.length == 10, page := s2.page + 1 }
  { s1 with loading := false, refreshing := false }

/-- One whole call `fetchPosts(reset)` with nothing interleaved. -/
def fetchPosts (reset : Bool) (r : QueryResult) (s : FeedState) : FeedState :=
  fetchPostsResume reset r (fetchPostsBegin reset s)

/-- The realtime INSERT handler, lines 168-171: `payload.new` is prepended. -/
def onInsert (payloadNew : Obj) (s : FeedState) : FeedState :=
  { s with posts := payloadNew :: s.posts }

/-- Two calls `fetchPosts(false)` started from the same render, before either
query has settled: both run their first part on `s`, then the completion of
the query that settles first runs, then the completion of the other. -/
def fetchPostsRace (first second : QueryResult) (s : FeedState) : FeedState :=
  fetchPostsResume false second
    (fetchPostsResume false first (fetchPostsBegin false (fetchPostsBegin false s)))

end useFeed

/-- The query failed: the promise was rejected, or the response carries a
truthy `error`. -/
def QueryResult.failed : QueryResult → Bool
  | .rejected _ => true
  | .response _ error => error.truthy

/-! ## Expressions of the local updates in `useFeed.js` -/

namespace JsVal

/-- The expression `v[0]`: `none` is the TypeError on `undefined` and `null`. -/
def index0 : JsVal → Option JsVal
  | undefined => none
  | null => none
  | arr items => some (items.head?.getD undefined)
  | str s => some (match s.data with
    | [] => undefined
    | c :: _ => str (String.singleton c))
  | obj fields => some (Obj.get fields "0")
  | _ => some undefined

/-- The expression `v?.k` for a property name `k` that only objects carry
(`count`, `id`): `undefined` on every value that is not an object. -/
def optProp (v : JsVal) (k : String) : JsVal :=
  match v with
  | obj fields => Obj.get fields k
  | _ => undefined

/-- The expression `a || b`. -/
def orElse (a b : JsVal) : JsVal := if a.truthy then a else b

/-- The bound 2^53: every integer up to it, in absolute value, is a double. -/
def maxExact : Int := 9007199254740992

/-- The double that adding the doubles `n` and `k` yields, for integer operands
up to 2^53 in absolute value: the sum when it is in that range, and the bound
itself when the sum is one past it (a tie, which rounds to the even
neighbour, so `2^53 + 1` is `2^53`). `none` for every other case, whose
rounding the model does not represent. -/
def addExact (n k : Int) : Option Int :=
  if -maxExact ≤ n ∧ n ≤ maxExact ∧ -maxExact ≤ k ∧ k ≤ maxExact then
    if n + k = maxExact + 1 then some maxExact
    else if n + k = -maxExact - 1 then some (-maxExact)
    else if -maxExact ≤ n + k ∧ n + k ≤ maxExact then some (n + k)
    else none
  else none

/-- The expression `a + k` for an integer literal `k`; `none` where the result
is not a value of the model (`NaN` for `undefined`, the string form of an
array or object, a number outside the exact range). -/
def plus : JsVal → Int → Option JsVal
  | num n, k => (addExact n k).map num
  | bool b, k => (addExact (if b then 1 else 0) k).map num
  | null, k => (addExact 0 k).map num
  | str s, k =>
    if -maxExact ≤ k ∧ k ≤ maxExact then some (str (s ++ toString k)) else none
  | _, _ => none

/-- The expression `a - k` for an integer literal `k`; `none` where the result
is not a value of the model (it goes through the numeric value of a string,
array or object, is `NaN`, or is a number outside the exact range). -/
def minus : JsVal → Int → Option JsVal
  | num n, k => (addExact n (-k)).map num
  | bool b, k => (addExact (if b then 1 else 0) (-k)).map num
  | null, k => (addExact 0 (-k)).map num
  | _, _ => none

end JsVal

/-- White space as `String.prototype.trim()` removes it: the white space and
line terminator code points of the language. -/
def isTrimSpace (c : Char) : Bool :=
  let n := c.toNat
  (9 ≤ n && n ≤ 13) || n == 32 || n == 160 || n == 5760 || (8192 ≤ n && n ≤ 8202)
    || n == 8232 || n == 8233 || n == 8239 || n == 8287 || n == 12288 || n == 65279

/-- The array `[{ count: c }]` of an aggregate column. -/
def countColumn (c : JsVal) : JsVal := .arr [.obj [("count", c)]]

/-- The expression `post[column][0]?.count || d`; `none` when `post[column]` is
`undefined` or `null`. -/
def countOr (column : String) (d : Int) (post : Obj) : Option JsVal :=
  (Obj.get post column).index0.map (fun first => (first.optProp "count").orElse (.num d))

/-- The list update `prev.map(post => post.id === postId ? f(post) : post)`,
`none` when `f` fails on an entry it is applied to. -/
def updateWhere (postId : JsVal) (f : Obj → Option Obj) : List Obj → Option (List Obj)
  | [] => some []
  | post :: rest =>
    match (if JsVal.strictEq (Obj.id post) postId then f post else some post),
        updateWhere postId f rest with
    | some p, some r => some (p :: r)
    | _, _ => none

namespace useFeed

/-- The entry the like branch builds, lines 105-109. -/
def likeEntry (userId : JsVal) (post : Obj) : Option Obj :=
  ((countOr "likes" 0 post).bind (fun c => c.plus 1)).map (fun c =>
    Obj.spread post
      [("likes", countColumn c), ("user_liked", .arr [.obj [("user_id", userId)]])])

/-- The entry the unlike branch builds, lines 86-90. -/
def unlikeEntry (post : Obj) : Option Obj :=
  ((countOr "likes" 1 post).bind (fun c => c.minus 1)).map (fun c =>
    Obj.spread post [("likes", countColumn c), ("user_liked", .arr [])])

/-- The entry `addComment` builds, lines 141-144. -/
def commentEntry (post : Obj) : Option Obj :=
  ((countOr "comments" 0 post).bind (fun c => c.plus 1)).map (fun c =>
    Obj.spread post [("comments", countColumn c)])

/-- The awaited results of one `likePost` call: the `user` of `getUser`, the
`data` of the lookup of an existing like, and the result of the delete or
insert, which the code never inspects. -/
structure LikeCalls where
  getUser : Awaited JsVal
  existingLike : Awaited JsVal
  mutation : Awaited JsVal

/-- The function `likePost(postId)`, lines 63-116: what the call returns or
throws, and the `posts` state it leaves (`none` when the queued update fails
or a count leaves the range of the model).
Every rejection lands in the `catch`, which only logs; no path has a
`return` with a value. -/
def likePost (postId : JsVal) (calls : LikeCalls) (s : FeedState) :
    Except JsVal JsVal × Option FeedState :=
  match calls.getUser with
  | .rejected _ => (.ok .undefined, some s)
  | .resolved user =>
    if !user.truthy then (.ok .undefined, some s)
    else
      match calls.existingLike with
      | .rejected _ => (.ok .undefined, some s)
      | .resolved existingLike =>
        match calls.mutation with
        | .rejected _ => (.ok .undefined, some s)
        | .resolved _ =>
          if existingLike.truthy then
            (.ok .undefined,
              (updateWhere postId unlikeEntry s.posts).map (fun ps => { s with posts := ps }))
          else
            (.ok .undefined,
              (updateWhere postId (likeEntry (user.optProp "id")) s.posts).map
                (fun ps => { s with posts := ps }))

/-- What the awaited insert of `addComment` (lines 123-134) produces. -/
inductive InsertResult where
  | response (data : JsVal) (error : JsVal)
  | rejected (reason : JsVal)

/-- The function `addComment(postId, content)`, lines 118-153: what the call
returns or throws, and the `posts` state it leaves. The `catch` logs and
rethrows. -/
def addComment (postId : JsVal) (getUser : Awaited JsVal) (insert : InsertResult)
    (s : FeedState) : Except JsVal JsVal × Option FeedState :=
  match getUser with
  | .rejected e => (.error e, some s)
  | .resolved user =>
    if !user.truthy then (.ok .undefined, some s)
    else
      match insert with
      | .rejected e => (.error e, some s)
      | .response data error =>
        if error.truthy then (.error error, some s)
        else
          (.ok data,
            (updateWhere postId commentEntry s.posts).map (fun ps => { s with posts := ps }))

/-- What a call `fetchPosts(reset)` returns or throws, lines 12-50: the body
has no `return`, the `catch` only logs, so the promise resolves to
`undefined` whatever the query did. -/
def fetchPostsReturn (_reset : Bool) (r : QueryResult) : Except JsVal JsVal :=
  match r with
  | .rejected _ => .ok .undefined
  | .response _ _ => .ok .undefined

/-- The range `loadMore()` requests, lines 57-61: none unless the guard
`!loading && hasMore` passes. -/
def loadMoreRequest (s : FeedState) : Option (Nat × Nat) :=
  if !s.loading && s.hasMore then some (fetchPostsRange false s) else none

/-- The function `loadMore()`, lines 57-61, with the query result its
`fetchPosts()` call would get. -/
def loadMore (r : QueryResult) (s : FeedState) : FeedState :=
  if !s.loading && s.hasMore then fetchPosts false r s else s

/-- A run of `loadMore()` calls, each completed before the next starts. -/
def loadMoreAll (rs : List QueryResult) (s : FeedState) : FeedState :=
  rs.foldl (fun st r => loadMore r st) s

/-- A run of successful `fetchPosts(false)` calls, each completed before the
next starts; every element is the rows of one response. -/
def fetchNextPages (pages : List (List Obj)) (s : FeedState) : FeedState :=
  pages.foldl (fun st d => fetchPosts false (.response (some d) .null) st) s

end useFeed

/-- The order test of `order('created_at', { ascending: false })` on two rows:
`a` is not older than `b`. Timestamps are ISO strings (or numbers); strings
are compared character by character. -/
def createdAtGe (a b : Obj) : Bool :=
  match Obj.get a "created_at", Obj.get b "created_at" with
  | .str x, .str y => decide (¬ x.data < y.data)
  | .num x, .num y => decide (y ≤ x)
  | _, _ => false

/-- The list is sorted by `created_at`, newest first. -/
def SortedByCreatedAtDesc (rows : List Obj) : Prop :=
  rows.Pairwise (fun a b => createdAtGe a b = true)

instance (rows : List Obj) : Decidable (SortedByCreatedAtDesc rows) := by
  unfold SortedByCreatedAtDesc; infer_instance

/-! ## The comments screen (`src/screens/post/CommentsScreen.js`) -/

/-- State cells of `CommentsScreen` that `fetchComments` writes, lines 21-29. -/
structure CommentsState where
  comments : List Obj
  loading : Bool
  page : Nat
  hasMore : Bool
  deriving Repr

namespace CommentsScreen

/-- The initial state, lines 21-29. -/
def initial : CommentsState :=
  { comments := [], loading := true, page := 0, hasMore := true }

/-- The comparison `x > 0`; `none` where it goes through the numeric value of
a string, array or object. -/
def gtZero : JsVal → Option Bool
  | .undefined => some false
  | .null => some false
  | .bool b => some b
  | .num n => some (decide (0 < n))
  | _ => none

/-- The expression `comment.user_liked && comment.user_liked.length > 0`,
line 111, on the value of `comment.user_liked`. -/
def likedFlag (userLiked : JsVal) : Option JsVal :=
  if !userLiked.truthy then some userLiked
  else
    match userLiked with
    | .arr items => some (.bool (decide (0 < items.length)))
    | .str s => some (.bool (decide (0 < s.length)))
    | .obj fields => (gtZero (Obj.get fields "length")).map JsVal.bool
    | _ => some (.bool false)

/-- The object built for one comment, lines 108-112, from the `data` of its
replies query. -/
def withReplies (replies : JsVal) (comment : Obj) : Option Obj :=
  (likedFlag (Obj.get comment "user_liked")).map (fun liked =>
    Obj.spread comment [("replies", replies.orElse (.arr [])), ("liked", liked)])

/-- The replies queries of `Promise.all`, lines 95-106: every query has to
resolve, or the whole `await` rejects (`none`). -/
def repliesOf (replies : Obj → Awaited JsVal) : List Obj → Option (List (Obj × JsVal))
  | [] => some []
  | c :: rest =>
    match replies c, repliesOf replies rest with
    | .resolved v, some r => some ((c, v) :: r)
    | _, _ => none

/-- The objects built by the callbacks of `Promise.all`, in order. -/
def enrichAll : List (Obj × JsVal) → Option (List Obj)
  | [] => some []
  | (c, v) :: rest =>
    match withReplies v c, enrichAll rest with
    | some x, some r => some (x :: r)
    | _, _ => none

/-- The range `(from, to)` that `fetchComments(reset)` requests, lines 77 and 90. -/
def fetchCommentsRange (reset : Bool) (s : CommentsState) : Nat × Nat :=
  let start := if reset then 0 else s.page * 20
  (start, start + 19)

/-- The part of `fetchComments(reset)` that runs before the await, lines 72-75. -/
def fetchCommentsBegin (reset : Bool) (s : CommentsState) : CommentsState :=
  if reset then { s with loading := true, page := 0 } else s

/-- The part of `fetchComments(reset)` that runs once the query has settled,
lines 92-129. A truthy `error`, a rejection, a `null` data (`data.map` throws)
and a rejected replies query all go to the `catch`, which leaves the list, the
cursor and `hasMore` alone; `finally` clears `loading`. The result is `none`
only where `likedFlag` is. -/
def fetchCommentsResume (reset : Bool) (r : QueryResult) (replies : Obj → Awaited JsVal)
    (s : CommentsState) : Option CommentsState :=
  let s1 : Option CommentsState :=
    match r with
    | .rejected _ => some s
    | .response data error =>
      if error.truthy then some s
      else
        match data with
        | none => some s
        | some d =>
          match repliesOf replies d with
          | none => some s
          | some pairs =>
            (enrichAll pairs).map (fun commentsWithReplies =>
              { s with
                comments :=
                  if reset then commentsWithReplies else s.comments ++ commentsWithReplies
                hasMore := d.length == 20
                page := s.page + 1 })
  s1.map (fun st => { st with loading := false })

/-- One whole call `fetchComments(reset)` with nothing interleaved. -/
def fetchComments (reset : Bool) (r : QueryResult) (replies : Obj → Awaited JsVal)
    (s : CommentsState) : Option CommentsState :=
  fetchCommentsResume reset r replies (fetchCommentsBegin reset s)

end CommentsScreen

/-! ## Realtime channels and effects -/

/-- The event types of a row change: `INSERT`, `UPDATE`, `DELETE`. -/
inductive RealtimeEventType where
  | insert
  | update
  | delete

/-- The realtime client: the topics of the channels that are subscribed. -/
abbrev Channels := List String

/-- The call chain `supabase.channel(topic).on(...).subscribe()`. -/
def subscribeChannel (topic : String) (cs : Channels) : Channels := cs ++ [topic]

/-- The call `supabase.removeChannel(channel)` for the channel of `topic`. -/
def removeChannel (topic : String) (cs : Channels) : Channels := cs.erase topic

/-- One run of a React effect callback: the client after the callback, and the
cleanup function the callback returned, if it returned one. -/
structure EffectRun where
  after : Channels
  cleanup : Option (Channels → Channels)

/-- Mount followed by unmount: React runs the effect callback, and on unmount
the cleanup the callback returned, if any. -/
def mountThenUnmount (effect : Channels → EffectRun) (cs : Channels) : Channels :=
  match (effect cs).cleanup with
  | some cleanup => cleanup (effect cs).after
  | none => (effect cs).after

namespace useFeed

/-- The dispatch of the channel of `useFeed`, lines 159-173: the one handler
is registered for `INSERT` on `posts`; an `UPDATE` or `DELETE` of a post
reaches no handler and leaves the state as it is. -/
def onRealtimeEvent (event : RealtimeEventType) (payloadNew : Obj) (s : FeedState) :
    FeedState :=
  match event with
  | .insert => onInsert payloadNew s
  | .update => s
  | .delete => s

/-- The effect of `useFeed`, lines 155-178: it subscribes `posts-changes` and
returns a cleanup that removes that channel. -/
def subscriptionEffect (cs : Channels) : EffectRun :=
  { after := subscribeChannel "posts-changes" cs
    cleanup := some (removeChannel "posts-changes") }

end useFeed

/-! ## The chat screen (`src/screens/chat/ChatDetailScreen.js`) -/

/-- State cells of `ChatDetailScreen`, lines 24-27. -/
structure ChatState where
  messages : List Obj
  newMessage : String
  loading : Bool
  sending : Bool
  deriving Repr

/-- What an awaited `.single()` query produces: the `{ data, error }` record,
`data` being `null` or one row, or a rejection. -/
inductive SingleResult where
  | response (data : Option Obj) (error : JsVal)
  | rejected (reason : JsVal)
  deriving Repr

namespace ChatDetailScreen

/-- The initial state, lines 24-27. -/
def initial : ChatState :=
  { messages := [], newMessage := "", loading := true, sending := false }

/-- The function `setupRealtimeSubscription()`, lines 96-142, on the client:
it subscribes the channel of the conversation and returns a cleanup that
removes it. -/
def setupRealtimeSubscription (topic : String) (cs : Channels) : EffectRun :=
  { after := subscribeChannel topic cs
    cleanup := some (removeChannel topic) }

/-- The effect of the screen, lines 34-40: with a truthy `userId` it calls
`setupRealtimeSubscription()` as a statement; the callback has no `return`. -/
def mountEffect (userId : JsVal) (topic : String) (cs : Channels) : EffectRun :=
  if userId.truthy then
    { after := (setupRealtimeSubscription topic cs).after, cleanup := none }
  else
    { after := cs, cleanup := none }

/-- The test `!newMessage.trim()`: the trimmed text is empty, that is, every
character of the text is white space that `trim()` removes. -/
def isBlank (text : String) : Bool := text.data.all isTrimSpace

/-- The guard of `handleSendMessage`, line 156, negated: the send goes on. -/
def canSend (newMessage : String) (user userId : JsVal) : Bool :=
  !isBlank newMessage && user.truthy && userId.truthy

/-- The function `handleSendMessage()`, lines 155-192, with the result of its
insert. On success the returned row is appended. The result is `none` when a
response has neither an error nor a row: the list would then hold `null`. -/
def handleSendMessage (user userId : JsVal) (r : SingleResult) (s : ChatState) :
    Option ChatState :=
  if !canSend s.newMessage user userId then some s
  else
    match r with
    | .rejected _ => some { s with sending := false }
    | .response data error =>
      if error.truthy then some { s with sending := false }
      else
        match data with
        | none => none
        | some row =>
          some { s with messages := s.messages ++ [row], newMessage := "", sending := false }

/-- The realtime INSERT handler, lines 107-135, with the result of its
re-fetch of `payload.new.id` and the timestamp `new Date().toISOString()`. A
fetched row is appended; when it is addressed to `user` and unread, the entries
with its id get a `read_at`. Reading `user.id` of a missing user throws after
the append. -/
def onInsert (user : JsVal) (now : String) (refetch : SingleResult) (s : ChatState) :
    ChatState :=
  match refetch with
  | .rejected _ => s
  | .response none _ => s
  | .response (some newMessage) _ =>
    let s1 : ChatState := { s with messages := s.messages ++ [newMessage] }
    match user with
    | .undefined => s1
    | .null => s1
    | _ =>
      if JsVal.strictEq (Obj.get newMessage "receiver_id") (user.optProp "id")
          && !(Obj.get newMessage "read_at").truthy then
        { s1 with
          messages := s1.messages.map (fun msg =>
            if JsVal.strictEq (Obj.id msg) (Obj.id newMessage) then
              Obj.spread msg [("read_at", .str now)]
            else msg) }
      else s1

end ChatDetailScreen

/-! ## Persistence (`src/store/useStore.js`, lines 157-166) -/

namespace useStore

/-- The option `partialize`, lines 160-165: the object that is persisted. -/
def partialize (state : Store) : Obj :=
  [("user", state.user),
    ("profile", state.profile),
    ("theme", .str state.theme),
    ("joinedCommunities", .arr (state.joinedCommunities.map JsVal.obj))]

end useStore

/-! ## More store actions (`src/store/useStore.js`) -/

namespace useStore

/-- Action `removeFromFeed(postId)`, lines 84-86. -/
def removeFromFeed (postId : JsVal) (s : Store) : Store :=
  { s with feed := s.feed.filter (fun post => !JsVal.strictEq (Obj.id post) postId) }

/-- Action `setNotifications(notifications)`, lines 94-97. -/
def setNotifications (notifications : List Obj) (s : Store) : Store :=
  { s with
    notifications := notifications
    unreadCount := (notifications.filter isUnread).length }

/-- Action `markNotificationAsRead(notificationId)`, lines 105-113, with the
timestamp `new Date().toISOString()`. -/
def markNotificationAsRead (notificationId : JsVal) (now : String) (s : Store) : Store :=
  let updated := s.notifications.map (fun n =>
    if JsVal.strictEq (Obj.id n) notificationId then Obj.spread n [("read_at", .str now)]
    else n)
  { s with
    notifications := updated
    unreadCount := (updated.filter isUnread).length }

/-- Action `markAllNotificationsAsRead()`, lines 114-120, with the timestamp
`new Date().toISOString()`. -/
def markAllNotificationsAsRead (now : String) (s : Store) : Store :=
  { s with
    notifications := s.notifications.map (fun n =>
      Obj.spread n [("read_at", (Obj.get n "read_at").orElse (.str now))])
    unreadCount := 0 }

/-- The unread counter agrees with the list: `unreadCount` is the number of
notifications whose `read_at` is falsy. -/
def UnreadInvariant (s : Store) : Prop :=
  s.unreadCount = (s.notifications.filter isUnread).length

instance (s : Store) : Decidable (UnreadInvariant s) := by
  unfold UnreadInvariant; infer_instance

end useStore

/-! ## The auth listener of `src/App.js` -/

/-- The two events of the listener whose branches keep the signed-in user. -/
inductive RefreshEvent where
  | tokenRefreshed
  | userUpdated

namespace App

/-- The branches of the `onAuthStateChange` handler for `TOKEN_REFRESHED` and
`USER_UPDATED`, lines 283-289: both call `setAuthState(session.user, session,
user)`, where `user` is the variable the component took from the store. The
first branch needs a truthy `session?.user`; the second reads `session.user`
unguarded, a TypeError (`none`) on a missing session. -/
def onRefreshEvent (event : RefreshEvent) (session user : JsVal) (s : Store) : Option Store :=
  match event with
  | .tokenRefreshed =>
    if (session.optProp "user").truthy then
      some (useStore.setAuthState (session.optProp "user") session user s)
    else some s
  | .userUpdated =>
    match session with
    | .undefined => none
    | .null => none
    | _ => some (useStore.setAuthState (session.optProp "user") session user s)

end App

/-! ## Error values and their classification -/

/-- A caught error: an instance of `Error` with its properties, or any other
value (a plain object of the backend client, a string, ...). -/
inductive ErrorValue where
  | errorObject (props : Obj)
  | plain (value : JsVal)

namespace ErrorValue

/-- Property access `error.k`: `none` is the TypeError on `undefined` and
`null`. -/
def prop (error : ErrorValue) (k : String) : Option JsVal :=
  match error with
  | errorObject props => some (Obj.get props k)
  | plain .undefined => none
  | plain .null => none
  | plain v => some (v.optProp k)

end ErrorValue

/-- The value `new Error(message)`; `stack` is the text the engine attaches. -/
def newError (message stack : String) : ErrorValue :=
  .errorObject [("message", .str message), ("stack", .str stack), ("name", .str "Error")]

/-- The conversion `String(n)` of a number: the decimal digits, for an integer
of the exact range; `none` outside it, where the digits depend on rounding and
the exponent form sets in. -/
def numString (n : Int) : Option String :=
  if -JsVal.maxExact ≤ n ∧ n ≤ JsVal.maxExact then some (toString n) else none

mutual
/-- The conversion `String(v)` of a value without a `toString` of its own;
`none` where `numString` is. -/
def jsString : JsVal → Option String
  | .undefined => some "undefined"
  | .null => some "null"
  | .bool b => some (if b then "true" else "false")
  | .num n => numString n
  | .str s => some s
  | .arr items => joinItems items
  | .obj _ => some "[object Object]"
/-- The text `items.join(",")`. -/
def joinItems : List JsVal → Option String
  | [] => some ""
  | [x] => itemString x
  | x :: y :: rest =>
    match itemString x, joinItems (y :: rest) with
    | some a, some b => some (a ++ "," ++ b)
    | _, _ => none
/-- The text of one array element in a join: empty for `undefined` and `null`. -/
def itemString : JsVal → Option String
  | .undefined => some ""
  | .null => some ""
  | .bool b => some (if b then "true" else "false")
  | .num n => numString n
  | .str s => some s
  | .arr items => joinItems items
  | .obj _ => some "[object Object]"
end

/-- The list `text` starts with the list `start`. -/
def startsWith : List Char → List Char → Bool
  | _, [] => true
  | [], _ :: _ => false
  | c :: cs, p :: ps => c == p && startsWith cs ps

/-- The list `part` occurs in the list `text`. -/
def containsChars : List Char → List Char → Bool
  | [], part => part.isEmpty
  | c :: cs, part => startsWith (c :: cs) part || containsChars cs part

/-- The expression `v?.includes(part)` as a condition: false on `undefined` and
`null`, the substring test on a string, the element test on an array, and a
TypeError (`none`) on every other value. -/
def includesText (v : JsVal) (part : String) : Option Bool :=
  match v with
  | .undefined => some false
  | .null => some false
  | .str s => some (containsChars s.data part.data)
  | .arr items => some (items.any (fun x => JsVal.strictEq x (.str part)))
  | _ => none

namespace ApiService

/-- The method `handleError(error)`, `src/services/api.js` lines 408-424. -/
def handleError (error : ErrorValue) : Option Obj :=
  match error.prop "message", error.prop "code" with
  | some message, some code =>
    if JsVal.strictEq message (.str "User not authenticated") then
      some [("success", .bool false),
        ("error", .str "Please sign in to continue"),
        ("code", .str "AUTH_REQUIRED")]
    else
      some [("success", .bool false),
        ("error", message.orElse (.str "An unexpected error occurred")),
        ("code", code.orElse (.str "UNKNOWN_ERROR"))]
  | _, _ => none

end ApiService

/-- State of the `ErrorHandler` singleton, `src/services/errorHandler.js`. -/
structure ErrorHandler where
  errors : List Obj
  maxErrors : Nat

namespace ErrorHandler

/-- The constructor, lines 5-8. -/
def fresh : ErrorHandler := { errors := [], maxErrors := 100 }

/-- The method `sanitizeError(error)`, lines 33-53; `dev` is `__DEV__`. The
result is `none` only where the string form of a value that is not an `Error`
is. -/
def sanitizeError (dev : Bool) (error : ErrorValue) : Option Obj :=
  match error with
  | .errorObject props =>
    if dev then
      some [("message", Obj.get props "message"),
        ("stack", Obj.get props "stack"),
        ("type", Obj.get props "name")]
    else
      some [("message", .str "An unexpected error occurred"), ("type", .str "UnknownError")]
  | .plain v =>
    (jsString v).map (fun text => [("message", .str text), ("type", .str "UnknownError")])

/-- The entry `log` stores, lines 11-19. -/
def errorEntry (now : String) (error : ErrorValue) (context : JsVal) : Obj :=
  [("timestamp", .str now),
    ("error", match error with
      | .errorObject props =>
        .obj [("message", Obj.get props "message"),
          ("stack", Obj.get props "stack"),
          ("name", Obj.get props "name")]
      | .plain v => v),
    ("context", context)]

/-- The method `log(error, context)`, lines 10-31: the value it returns and
the handler afterwards. -/
def log (dev : Bool) (now : String) (error : ErrorValue) (context : JsVal)
    (h : ErrorHandler) : Option Obj × ErrorHandler :=
  let pushed := h.errors ++ [errorEntry now error context]
  (sanitizeError dev error,
    { h with errors := if pushed.length > h.maxErrors then pushed.tail else pushed })

/-- The method `handleApiError(error, operation)`, lines 66-94; `stack` is the
stack text of an error the method creates. `none` is a TypeError. -/
def handleApiError (dev : Bool) (now stack : String) (error : ErrorValue)
    (operation : String) (h : ErrorHandler) : Option (Option Obj × ErrorHandler) :=
  let context : JsVal := .obj [("operation", .str operation)]
  match error.prop "code", error.prop "message" with
  | some code, some message =>
    if code.truthy then
      if JsVal.strictEq code (.str "23505") then
        some (log dev now (newError "This item already exists" stack) context h)
      else if JsVal.strictEq code (.str "42501") then
        some (log dev now
          (newError "You do not have permission to perform this action" stack) context h)
      else if JsVal.strictEq code (.str "PGRST116") then
        some (log dev now (newError "Item not found" stack) context h)
      else some (log dev now error context h)
    else
      match includesText message "Network request failed" with
      | none => none
      | some true =>
        some (log dev now
          (newError "Network error. Please check your connection" stack) context h)
      | some false =>
        match includesText message "JWT" with
        | none => none
        | some true =>
          some (log dev now
            (newError "Session expired. Please sign in again" stack) context h)
        | some false => some (log dev now error context h)
  | _, _ => none

/-- The method `clear()`, lines 96-98. -/
def clear (h : ErrorHandler) : ErrorHandler := { h with errors := [] }

/-- The method `getErrors()`, lines 100-102: a new array with the entries. -/
def getErrors (h : ErrorHandler) : List Obj := h.errors

/-- The arrays that exist, each under its reference (its position). -/
structure ArrayHeap where
  cells : List (List Obj)

/-- The elements of the array at `ref`. -/
def ArrayHeap.read (heap : ArrayHeap) (ref : Nat) : List Obj := heap.cells.getD ref []

/-- A mutation of the array at `ref` (a `push`, `pop`, `splice`, ...): its
elements become `elements`. -/
def ArrayHeap.write (heap : ArrayHeap) (ref : Nat) (elements : List Obj) : ArrayHeap :=
  { cells := heap.cells.set ref elements }

/-- An array literal: a new array with the given elements, and its reference. -/
def ArrayHeap.alloc (heap : ArrayHeap) (elements : List Obj) : Nat × ArrayHeap :=
  (heap.cells.length, { cells := heap.cells ++ [elements] })

/-- The method `getErrors()`, lines 100-102, on references: with the buffer
`this.errors` at `buffer`, the literal `[...this.errors]` is a new array with
the elements of the buffer; its reference is returned. -/
def getErrorsRef (buffer : Nat) (heap : ArrayHeap) : Nat × ArrayHeap :=
  heap.alloc (heap.read buffer)

/-- A run of `log` calls, each given as timestamp, error and context. -/
def logAll (dev : Bool) (calls : List (String × ErrorValue × JsVal)) (h : ErrorHandler) :
    ErrorHandler :=
  calls.foldl (fun st c => (log dev c.1 c.2.1 c.2.2 st).2) h

end ErrorHandler

/-! ## Image validation (`src/services/imageUpload.js`) -/

/-- The comparison `v > k` with an integer `k`; `none` where it goes through
the numeric value of a string, array or object. -/
def JsVal.gtInt (v : JsVal) (k : Int) : Option Bool :=
  match v with
  | .undefined => some false
  | .null => some (decide (k < 0))
  | .bool b => some (decide (k < (if b then 1 else 0)))
  | .num n => some (decide (k < n))
  | _ => none

namespace ImageUploadService

/-- The field `maxImageSize`, line 10. -/
def maxImageSize : Int := 10 * 1024 * 1024

/-- The field `allowedTypes`, line 11. -/
def allowedTypes : List String := ["image/jpeg", "image/png", "image/gif", "image/webp"]

/-- The method `validateImage(image)`, lines 81-97: the promise resolves to
`true` or rejects with an `Error` of the given message. -/
def validateImage (image : JsVal) : Option (Except String Bool) :=
  if !image.truthy || !(image.optProp "uri").truthy then
    some (.error "Invalid image file")
  else
    let fileSize := image.optProp "fileSize"
    match (if fileSize.truthy then fileSize.gtInt maxImageSize else some false) with
    | none => none
    | some true => some (.error "Image size must be less than 10MB")
    | some false =>
      let mimeType := image.optProp "mimeType"
      if mimeType.truthy
          && !(allowedTypes.any (fun t => JsVal.strictEq (.str t) mimeType)) then
        some (.error "Image must be JPEG, PNG, GIF, or WebP")
      else some (.ok true)

end ImageUploadService

/-! ## Profile form validation (`src/screens/EditProfileScreen.js`) -/

/-- The fields of the `profile` state that `validateForm` reads, lines 23-30. -/
structure ProfileForm where
  full_name : String
  username : String
  bio : String
  deriving Repr

namespace EditProfileScreen

/-- The test `!text.trim()`. -/
def isBlank (text : String) : Bool := text.data.all isTrimSpace

/-- A character of the class `[a-zA-Z0-9_]`. -/
def isWordChar (c : Char) : Bool :=
  let n := c.toNat
  (97 ≤ n && n ≤ 122) || (65 ≤ n && n ≤ 90) || (48 ≤ n && n ≤ 57) || n == 95

/-- The test of the regular expression `^[a-zA-Z0-9_]+$`, line 160. -/
def usernamePattern (text : String) : Bool :=
  !text.data.isEmpty && text.data.all isWordChar

/-- The property `text.length`: the number of UTF-16 code units. -/
def jsLength (text : String) : Nat :=
  (text.data.map (fun c => if 65536 ≤ c.toNat then 2 else 1)).sum

/-- The function `validateForm()`, lines 151-174: the `errors` object it sets
and the value it returns. -/
def validateForm (profile : ProfileForm) : Obj × Bool :=
  let e₁ : Obj :=
    if isBlank profile.full_name then Obj.set [] "full_name" (.str "Name is required")
    else []
  let e₂ : Obj :=
    if isBlank profile.username then
      Obj.set e₁ "username" (.str "Username is required")
    else if !usernamePattern profile.username then
      Obj.set e₁ "username"
        (.str "Username can only contain letters, numbers, and underscores")
    else if jsLength profile.username < 3 then
      Obj.set e₁ "username" (.str "Username must be at least 3 characters")
    else if jsLength profile.username > 30 then
      Obj.set e₁ "username" (.str "Username must be less than 30 characters")
    else e₁
  let e₃ : Obj :=
    if jsLength profile.bio > 150 then
      Obj.set e₂ "bio" (.str "Bio must be 150 characters or less")
    else e₂
  (e₃, e₃.length == 0)

end EditProfileScreen

/-- The message a classified error shows in the value for the UI: the text of
the classification in a development build, the fixed text in production. -/
def ErrorHandler.shownMessage (dev : Bool) (text : String) : JsVal :=
  if dev then .str text else .str "An unexpected error occurred"

/-- The acceptance rule for an image object: a truthy `uri`, a `fileSize`
that, when given as a number, is at most 10 MB, and a `mimeType` that is falsy
or one of the allowed types. -/
def ImageUploadService.meetsLimits (fields : Obj) : Bool :=
  (Obj.get fields "uri").truthy
    && (match Obj.get fields "fileSize" with
      | .num n => decide (n ≤ 10 * 1024 * 1024)
      | _ => true)
    && (!(Obj.get fields "mimeType").truthy
      || ImageUploadService.allowedTypes.any
          (fun t => JsVal.strictEq (.str t) (Obj.get fields "mimeType")))

/-- The acceptance rule for the profile form: a non-blank name, a non-blank
username of letters, digits and underscores with 3 to 30 characters, and a
bio of at most 150 characters. -/
def EditProfileScreen.formIsValid (profile : ProfileForm) : Bool :=
  !EditProfileScreen.isBlank profile.full_name
    && !EditProfileScreen.isBlank profile.username
    && EditProfileScreen.usernamePattern profile.username
    && decide (3 ≤ EditProfileScreen.jsLength profile.username)
    && decide (EditProfileScreen.jsLength profile.username ≤ 30)
    && decide (EditProfileScreen.jsLength profile.bio ≤ 150)

/-! ## Sample rows used at concrete inputs -/

/-- A post row with id 1. -/
def samplePost : Obj := [("id", .num 1), ("content", .str "hello")]

/-- A second post row, with id 2. -/
def otherPost : Obj := [("id", .num 2), ("content", .str "world")]

/-- A hook state after one loaded page: one post, cursor at page 1. -/
def loadedFeed : FeedState :=
  { posts := [samplePost], loading := false, refreshing := false, page := 1, hasMore := true }

/-- An error object as the backend client reports it. -/
def sampleError : JsVal := .obj [("message", .str "Network request failed")]

/-- A notification row that has not been read. -/
def sampleNotification : Obj := [("id", .num 7), ("read_at", .null)]

/-- A chat message row. -/
def sampleMessage : Obj := [("id", .num 9), ("content", .str "hi")]

/-- A post row with id 5 and like count 3. -/
def likedPost : Obj := [("id", .num 5), ("likes", countColumn (.num 3)), ("user_liked", .arr [])]

/-- A signed-in user object. -/
def sampleUser : JsVal := .obj [("id", .str "u1")]

/-- A chat state with a typed message that is ready to send. -/
def typingChat : ChatState :=
  { messages := [], newMessage := "hi", loading := false, sending := false }

/-- The row the backend returns for a message sent by `u1` to `u2`. -/
def sentMessage : Obj :=
  [("id", .num 9), ("sender_id", .str "u1"), ("receiver_id", .str "u2"),
    ("content", .str "hi")]

/-- A top-level comment row as the comments query returns it. -/
def sampleComment : Obj :=
  [("id", .num 11), ("content", .str "nice"), ("user_liked", .arr [])]

/-- A replies query that resolves with no replies for every comment. -/
def noReplies : Obj → Awaited JsVal := fun _ => .resolved (.arr [])

/-- A post row of an initial page: post 1 as stored, created at noon. -/
def storedPost : Obj :=
  [("id", .num 1), ("content", .str "old"), ("created_at", .str "2024-01-01T12:00:00Z")]

/-- A newer version of post 1, as a realtime payload carries it. -/
def insertedPost : Obj :=
  [("id", .num 1), ("content", .str "new"), ("created_at", .str "2024-01-01T12:00:00Z")]

/-- An older post of the initial page. -/
def olderPost : Obj :=
  [("id", .num 2), ("content", .str "older"), ("created_at", .str "2024-01-01T09:00:00Z")]

/-- The awaited results of a `likePost` call whose insert is rejected. -/
def failingLike : useFeed.LikeCalls :=
  { getUser := .resolved sampleUser, existingLike := .resolved .null
    mutation := .rejected sampleError }

/-- The awaited results of a `likePost` call that inserts a like. -/
def succeedingLike : useFeed.LikeCalls :=
  { getUser := .resolved sampleUser, existingLike := .resolved .null
    mutation := .resolved (.obj [("error", .null)]) }

/-- The awaited results of a `likePost` call that finds a like and deletes it. -/
def succeedingUnlike : useFeed.LikeCalls :=
  { getUser := .resolved sampleUser, existingLike := .resolved (.obj [("id", .num 77)])
    mutation := .resolved (.obj [("error", .null)]) }

/-- A post row whose like count is 2^53. -/
def popularPost : Obj :=
  [("id", .num 5), ("likes", countColumn (.num 9007199254740992)), ("user_liked", .arr [])]

/-- Two `log` calls: a thrown string, then an `Error`. -/
def sampleLogCalls : List (String × ErrorValue × JsVal) :=
  [("2024-01-01T00:00:00.000Z", .plain (.str "row 7 missing"), .obj []),
    ("2024-01-01T00:00:01.000Z", newError "Item not found" "at fetch", .obj [])]

/-- A backend error object whose own code is already `AUTH_REQUIRED`. -/
def relabelledError : ErrorValue :=
  .plain (.obj [("message", .str "Please sign in to continue"), ("code", .str "AUTH_REQUIRED")])

/-- A unique-violation error of the backend. -/
def duplicateError : ErrorValue :=
  .plain (.obj [("message", .str "duplicate key value"), ("code", .str "23505")])

/-- A network error whose message also mentions the token. -/
def networkJwtError : ErrorValue :=
  .plain (.obj [("message", .str "Network request failed while refreshing JWT")])

/-- An image of exactly 10 MB. -/
def boundaryImage : Obj :=
  [("uri", .str "file://photo.jpg"), ("fileSize", .num 10485760),
    ("mimeType", .str "image/jpeg")]

/-- A profile form whose username has exactly 30 characters. -/
def longUsernameForm : ProfileForm :=
  { full_name := "Ann", username := "aaaaaaaaaaaaaaaaaaaaaaaaaaaaaa", bio := "" }

/-- The cached profile row of the signed-in user. -/
def sampleProfile : JsVal := .obj [("id", .str "u1"), ("username", .str "ann")]

/-- A store after sign-in: user, session and cached profile are set. -/
def signedInStore : Store :=
  useStore.setAuthState sampleUser
    (.obj [("access_token", .str "t1"), ("user", sampleUser)]) sampleProfile useStore.initial

/-- The session a token refresh delivers. -/
def refreshedSession : JsVal := .obj [("access_token", .str "t2"), ("user", sampleUser)]

/-! ## Helper lemmas -/

theorem strictEq_comm (a b : JsVal) : JsVal.strictEq a b = JsVal.strictEq b a := by
  cases a <;> cases b <;> simp [JsVal.strictEq, eq_comm]

theorem strictEq_self_of_isPrimitive (a : JsVal) (h : a.isPrimitive = true) :
    JsVal.strictEq a a = true := by
  cases a <;> simp_all [JsVal.strictEq, JsVal.isPrimitive]

theorem distinctIds_append (xs ys : List Obj) :
    DistinctIds (xs ++ ys) ↔
      DistinctIds xs ∧ DistinctIds ys ∧
        ∀ a ∈ xs, ∀ b ∈ ys, JsVal.strictEq (Obj.id a) (Obj.id b) = false := by
  unfold DistinctIds
  exact List.pairwise_append

theorem distinctIds_append_comm (xs ys : List Obj) :
    DistinctIds (xs ++ ys) ↔ DistinctIds (ys ++ xs) := by
  rw [distinctIds_append, distinctIds_append]
  constructor
  · rintro ⟨hx, hy, hxy⟩
    exact ⟨hy, hx, fun b hb a ha => by rw [strictEq_comm]; exact hxy a ha b hb⟩
  · rintro ⟨hy, hx, hyx⟩
    exact ⟨hx, hy, fun a ha b hb => by rw [strictEq_comm]; exact hyx b hb a ha⟩

theorem eq_of_strictEq {a b : JsVal} (h : JsVal.strictEq a b = true) : a = b := by
  cases a <;> cases b <;> simp_all [JsVal.strictEq]

theorem get_nil (k : String) : Obj.get [] k = JsVal.undefined := rfl

theorem get_cons (k₀ : String) (v₀ : JsVal) (rest : Obj) (k : String) :
    Obj.get ((k₀, v₀) :: rest) k = if k₀ = k then v₀ else Obj.get rest k := by
  by_cases h : k₀ = k
  · have hb : (k₀ == k) = true := by simpa using h
    simp [Obj.get, List.find?, hb, h]
  · have hb : (k₀ == k) = false := by simpa using h
    simp [Obj.get, List.find?, hb, h]

theorem get_set (o : Obj) (k k' : String) (v : JsVal) :
    Obj.get (Obj.set o k v) k' = if k = k' then v else Obj.get o k' := by
  induction o with
  | nil => simp [Obj.set, get_cons, get_nil]
  | cons kv rest ih =>
    obtain ⟨k₀, v₀⟩ := kv
    by_cases h₀ : k₀ = k
    · subst h₀
      by_cases h : k₀ = k' <;> simp [Obj.set, get_cons, h]
    · by_cases h₁ : k₀ = k'
      · subst h₁
        have hne : ¬ k = k₀ := fun e => h₀ e.symm
        simp [Obj.set, get_cons, h₀, hne]
      · simp [Obj.set, get_cons, h₀, h₁, ih]

theorem get_spread_of_not_mem (o updates : Obj) (k : String)
    (h : ∀ kv ∈ updates, kv.1 ≠ k) :
    Obj.get (Obj.spread o updates) k = Obj.get o k := by
  induction updates generalizing o with
  | nil => rfl
  | cons kv rest ih =>
    have hk : kv.1 ≠ k := h kv (List.mem_cons_self _ _)
    have hrest : ∀ x ∈ rest, x.1 ≠ k := fun x hx => h x (List.mem_cons_of_mem _ hx)
    show Obj.get (Obj.spread (Obj.set o kv.1 kv.2) rest) k = _
    rw [ih _ hrest, get_set, if_neg hk]

theorem get_spread_of_mem (o updates : Obj)
    (huniq : updates.Pairwise (fun x y => x.1 ≠ y.1)) :
    ∀ kv ∈ updates, Obj.get (Obj.spread o updates) kv.1 = kv.2 := by
  induction updates generalizing o with
  | nil => intro kv hkv; cases hkv
  | cons x rest ih =>
    rw [List.pairwise_cons] at huniq
    intro kv hkv
    show Obj.get (Obj.spread (Obj.set o x.1 x.2) rest) kv.1 = _
    rcases List.mem_cons.mp hkv with rfl | hmem
    · rw [get_spread_of_not_mem _ _ _ (fun y hy => (huniq.1 y hy).symm), get_set, if_pos rfl]
    · exact ih _ huniq.2 kv hmem

theorem get_spread_cases (o updates : Obj) (k : String) :
    Obj.get (Obj.spread o updates) k = Obj.get o k ∨
      ∃ kv ∈ updates, kv.1 = k ∧ Obj.get (Obj.spread o updates) k = kv.2 := by
  induction updates generalizing o with
  | nil => exact Or.inl rfl
  | cons kv rest ih =>
    show Obj.get (Obj.spread (Obj.set o kv.1 kv.2) rest) k = _ ∨
      ∃ x ∈ kv :: rest, x.1 = k ∧ Obj.get (Obj.spread (Obj.set o kv.1 kv.2) rest) k = x.2
    rcases ih (Obj.set o kv.1 kv.2) with h | ⟨x, hx, hxk, hget⟩
    · rw [h, get_set]
      by_cases hk : kv.1 = k
      · exact Or.inr ⟨kv, List.mem_cons_self _ _, hk, by rw [if_pos hk]⟩
      · exact Or.inl (by rw [if_neg hk])
    · exact Or.inr ⟨x, List.mem_cons_of_mem _ hx, hxk, hget⟩

theorem map_update_of_absent (postId : JsVal) (updates : Obj) (rows : List Obj)
    (h : ∀ p ∈ rows, JsVal.strictEq (Obj.id p) postId = false) :
    rows.map (fun post =>
      if JsVal.strictEq (Obj.id post) postId then Obj.spread post updates else post) = rows := by
  induction rows with
  | nil => rfl
  | cons q rest ih =>
    have hq := h q (List.mem_cons_self _ _)
    have hrest := ih (fun p hp => h p (List.mem_cons_of_mem _ hp))
    simp only [List.map_cons, hq, hrest]
    simp

theorem map_update_decomp (postId : JsVal) (updates : Obj) (rows : List Obj)
    (hdist : DistinctIds rows) (hmem : ∃ p ∈ rows, Obj.hasId postId p = true) :
    ∃ before p after, rows = before ++ p :: after ∧ Obj.hasId postId p = true ∧
      (∀ q ∈ before ++ after, Obj.hasId postId q = false) ∧
      rows.map (fun post =>
        if JsVal.strictEq (Obj.id post) postId then Obj.spread post updates else post)
        = before ++ Obj.spread p updates :: after := by
  induction rows with
  | nil => obtain ⟨p, hp, _⟩ := hmem; cases hp
  | cons q rest ih =>
    unfold DistinctIds at hdist
    rw [List.pairwise_cons] at hdist
    cases hq : JsVal.strictEq (Obj.id q) postId with
    | true =>
      have hid : Obj.id q = postId := eq_of_strictEq hq
      have habs : ∀ r ∈ rest, JsVal.strictEq (Obj.id r) postId = false := by
        intro r hr
        rw [← hid, strictEq_comm]
        exact hdist.1 r hr
      refine ⟨[], q, rest, rfl, hq, fun r hr => habs r (by simpa using hr), ?_⟩
      simp only [List.map_cons, hq, map_update_of_absent postId updates rest habs]
      simp
    | false =>
      have hmem' : ∃ p ∈ rest, Obj.hasId postId p = true := by
        obtain ⟨p, hp, hpid⟩ := hmem
        rcases List.mem_cons.mp hp with rfl | hp'
        · have : JsVal.strictEq (Obj.id p) postId = true := hpid
          rw [hq] at this
          cases this
        · exact ⟨p, hp', hpid⟩
      obtain ⟨before, p, after, hrows, hp, hothers, hmap⟩ := ih hdist.2 hmem'
      refine ⟨q :: before, p, after, by rw [hrows]; rfl, hp, ?_, ?_⟩
      · intro r hr
        have hr' : r = q ∨ r ∈ before ++ after := by simpa using hr
        rcases hr' with rfl | hr'
        · exact hq
        · exact hothers r hr'
      · simp only [List.map_cons, hq, hmap]
        simp

/-! ## C1: merging the same entry twice -/

/-- C1, as stated, fails: from the empty feed, `addToFeed([p])` twice, and the
realtime INSERT handler fired twice with the same payload, each leave two
entries with the id of `p`, not one. -/
theorem c1_merge_twice_counterexample :
    idCount (Obj.id samplePost)
        (useStore.addToFeed [samplePost]
          (useStore.addToFeed [samplePost] useStore.initial)).feed = 2 ∧
      idCount (Obj.id samplePost)
        (useFeed.onInsert samplePost
          (useFeed.onInsert samplePost useFeed.initial)).posts = 2 := by
  decide

/-- C1, amended: neither `addToFeed` nor the INSERT handler merges by id.
Merging the same entry `p` twice puts `p` twice in front of the previous list,
so the number of entries with the id of `p` is two more than before. -/
theorem c1_merge_twice_prepends_twice (s : Store) (h : FeedState) (p : Obj)
    (hp : (Obj.id p).isPrimitive = true) :
    (useStore.addToFeed [p] (useStore.addToFeed [p] s)).feed = p :: p :: s.feed ∧
      (useFeed.onInsert p (useFeed.onInsert p h)).posts = p :: p :: h.posts ∧
      idCount (Obj.id p) (useStore.addToFeed [p] (useStore.addToFeed [p] s)).feed
        = idCount (Obj.id p) s.feed + 2 ∧
      idCount (Obj.id p) (useFeed.onInsert p (useFeed.onInsert p h)).posts
        = idCount (Obj.id p) h.posts + 2 := by
  have hself : Obj.hasId (Obj.id p) p = true := strictEq_self_of_isPrimitive _ hp
  refine ⟨rfl, rfl, ?_, ?_⟩
  · show idCount (Obj.id p) (p :: p :: s.feed) = _
    simp [idCount, List.countP_cons, hself]
  · show idCount (Obj.id p) (p :: p :: h.posts) = _
    simp [idCount, List.countP_cons, hself]

/-- C1, amended, at a concrete input: the sample post merged twice into the
initial store and into the initial hook state. -/
theorem c1_merge_twice_prepends_twice_witness :
    (useStore.addToFeed [samplePost]
        (useStore.addToFeed [samplePost] useStore.initial)).feed
      = samplePost :: samplePost :: useStore.initial.feed ∧
    (useFeed.onInsert samplePost (useFeed.onInsert samplePost useFeed.initial)).posts
      = samplePost :: samplePost :: useFeed.initial.posts ∧
    idCount (Obj.id samplePost)
        (useStore.addToFeed [samplePost]
          (useStore.addToFeed [samplePost] useStore.initial)).feed
      = idCount (Obj.id samplePost) useStore.initial.feed + 2 ∧
    idCount (Obj.id samplePost)
        (useFeed.onInsert samplePost (useFeed.onInsert samplePost useFeed.initial)).posts
      = idCount (Obj.id samplePost) useFeed.initial.posts + 2 :=
  c1_merge_twice_prepends_twice useStore.initial useFeed.initial samplePost (by decide)

/-! ## C2: ids after `addToFeed` and `appendToFeed` -/

/-- C2, as stated, fails: the feed `[p]` and the entries `[p]` each have
pairwise distinct ids, yet `addToFeed` and `appendToFeed` both return a feed of
length 2 in which the id of `p` occurs twice. -/
theorem c2_dedup_counterexample :
    DistinctIds (useStore.setFeed [samplePost] useStore.initial).feed ∧
      DistinctIds [samplePost] ∧
      ¬ DistinctIds
        (useStore.addToFeed [samplePost]
          (useStore.setFeed [samplePost] useStore.initial)).feed ∧
      ¬ DistinctIds
        (useStore.appendToFeed [samplePost]
          (useStore.setFeed [samplePost] useStore.initial)).feed ∧
      (useStore.addToFeed [samplePost]
          (useStore.setFeed [samplePost] useStore.initial)).feed.length = 2 ∧
      (useStore.appendToFeed [samplePost]
          (useStore.setFeed [samplePost] useStore.initial)).feed.length = 2 := by
  decide

/-- C2, amended: for a feed and a list of entries that each have pairwise
distinct ids, `addToFeed` is the entries followed by the feed and
`appendToFeed` the feed followed by the entries; the length always grows by
the number of entries, and the ids of the result are pairwise distinct exactly
when no entry carries an id that is already present in the feed. -/
theorem c2_concat_distinct_iff_disjoint (s : Store) (entries : List Obj)
    (hfeed : DistinctIds s.feed) (hentries : DistinctIds entries) :
    (useStore.addToFeed entries s).feed = entries ++ s.feed ∧
      (useStore.appendToFeed entries s).feed = s.feed ++ entries ∧
      (useStore.addToFeed entries s).feed.length = s.feed.length + entries.length ∧
      (useStore.appendToFeed entries s).feed.length = s.feed.length + entries.length ∧
      (DistinctIds (useStore.addToFeed entries s).feed ↔
        ∀ e ∈ entries, ∀ p ∈ s.feed, JsVal.strictEq (Obj.id e) (Obj.id p) = false) ∧
      (DistinctIds (useStore.appendToFeed entries s).feed ↔
        ∀ e ∈ entries, ∀ p ∈ s.feed, JsVal.strictEq (Obj.id e) (Obj.id p) = false) := by
  refine ⟨rfl, rfl, ?_, ?_, ?_, ?_⟩
  · show (entries ++ s.feed).length = _
    rw [List.length_append, Nat.add_comm]
  · show (s.feed ++ entries).length = _
    rw [List.length_append]
  · show DistinctIds (entries ++ s.feed) ↔ _
    rw [distinctIds_append]
    exact ⟨fun h => h.2.2, fun h => ⟨hentries, hfeed, h⟩⟩
  · show DistinctIds (s.feed ++ entries) ↔ _
    rw [distinctIds_append_comm, distinctIds_append]
    exact ⟨fun h => h.2.2, fun h => ⟨hentries, hfeed, h⟩⟩

/-- C2, amended, at a concrete input: the feed `[samplePost]` and the entries
`[otherPost]`, which share no id. -/
theorem c2_concat_distinct_iff_disjoint_witness :
    DistinctIds (useStore.setFeed [samplePost] useStore.initial).feed ∧
      DistinctIds [otherPost] ∧
      DistinctIds
        (useStore.addToFeed [otherPost]
          (useStore.setFeed [samplePost] useStore.initial)).feed ∧
      DistinctIds
        (useStore.appendToFeed [otherPost]
          (useStore.setFeed [samplePost] useStore.initial)).feed :=
  have h := c2_concat_distinct_iff_disjoint
    (useStore.setFeed [samplePost] useStore.initial) [otherPost] (by decide) (by decide)
  ⟨by decide, by decide, h.2.2.2.2.1.mpr (by decide), h.2.2.2.2.2.mpr (by decide)⟩

/-! ## C3: two concurrent `fetchPosts(false)` -/

/-- C3, as stated, fails: two calls `fetchPosts(false)` started from the same
state request the same range; when both responses carry the row `otherPost`,
the list after both completions holds that id twice. -/
theorem c3_race_counterexample :
    useFeed.fetchPostsRange false (useFeed.fetchPostsBegin false loadedFeed)
        = useFeed.fetchPostsRange false loadedFeed ∧
      DistinctIds loadedFeed.posts ∧
      idCount (Obj.id otherPost)
        (useFeed.fetchPostsRace (.response (some [otherPost]) .null)
          (.response (some [otherPost]) .null) loadedFeed).posts = 2 ∧
      ¬ DistinctIds
        (useFeed.fetchPostsRace (.response (some [otherPost]) .null)
          (.response (some [otherPost]) .null) loadedFeed).posts := by
  decide

/-- C3, amended: two calls `fetchPosts(false)` started from the same state
request the same range, and after both completions the list is the previous
list followed by the rows of the two responses in arrival order, with the
cursor advanced twice. Nothing is merged by id: the result has pairwise
distinct ids exactly when the previous list and the two responses have, and
share no id; the two arrival orders agree on that. -/
theorem c3_race_appends_both (s : FeedState) (d₁ d₂ : List Obj) :
    useFeed.fetchPostsRange false (useFeed.fetchPostsBegin false s)
        = useFeed.fetchPostsRange false s ∧
      (useFeed.fetchPostsRace (.response (some d₁) .null)
          (.response (some d₂) .null) s).posts = s.posts ++ d₁ ++ d₂ ∧
      (useFeed.fetchPostsRace (.response (some d₂) .null)
          (.response (some d₁) .null) s).posts = s.posts ++ d₂ ++ d₁ ∧
      (useFeed.fetchPostsRace (.response (some d₁) .null)
          (.response (some d₂) .null) s).page = s.page + 2 ∧
      (DistinctIds (useFeed.fetchPostsRace (.response (some d₁) .null)
          (.response (some d₂) .null) s).posts ↔
        (DistinctIds s.posts ∧ DistinctIds d₁ ∧ DistinctIds d₂ ∧
          (∀ a ∈ s.posts, ∀ b ∈ d₁, JsVal.strictEq (Obj.id a) (Obj.id b) = false) ∧
          (∀ a ∈ s.posts, ∀ b ∈ d₂, JsVal.strictEq (Obj.id a) (Obj.id b) = false) ∧
          (∀ a ∈ d₁, ∀ b ∈ d₂, JsVal.strictEq (Obj.id a) (Obj.id b) = false))) ∧
      (DistinctIds (useFeed.fetchPostsRace (.response (some d₁) .null)
          (.response (some d₂) .null) s).posts ↔
        DistinctIds (useFeed.fetchPostsRace (.response (some d₂) .null)
          (.response (some d₁) .null) s).posts) := by
  have h12 : (useFeed.fetchPostsRace (.response (some d₁) .null)
      (.response (some d₂) .null) s).posts = s.posts ++ d₁ ++ d₂ := by
    simp [useFeed.fetchPostsRace, useFeed.fetchPostsResume, useFeed.fetchPostsBegin,
      JsVal.truthy]
  have h21 : (useFeed.fetchPostsRace (.response (some d₂) .null)
      (.response (some d₁) .null) s).posts = s.posts ++ d₂ ++ d₁ := by
    simp [useFeed.fetchPostsRace, useFeed.fetchPostsResume, useFeed.fetchPostsBegin,
      JsVal.truthy]
  have hsplit : ∀ x y : List Obj, DistinctIds (s.posts ++ x ++ y) ↔
      (DistinctIds s.posts ∧ DistinctIds x ∧ DistinctIds y ∧
        (∀ a ∈ s.posts, ∀ b ∈ x, JsVal.strictEq (Obj.id a) (Obj.id b) = false) ∧
        (∀ a ∈ s.posts, ∀ b ∈ y, JsVal.strictEq (Obj.id a) (Obj.id b) = false) ∧
        (∀ a ∈ x, ∀ b ∈ y, JsVal.strictEq (Obj.id a) (Obj.id b) = false)) := by
    intro x y
    rw [distinctIds_append, distinctIds_append]
    constructor
    · rintro ⟨⟨hs, hx, hsx⟩, hy, hall⟩
      exact ⟨hs, hx, hy, hsx,
        fun a ha b hb => hall a (List.mem_append_left _ ha) b hb,
        fun a ha b hb => hall a (List.mem_append_right _ ha) b hb⟩
    · rintro ⟨hs, hx, hy, hsx, hsy, hxy⟩
      refine ⟨⟨hs, hx, hsx⟩, hy, fun a ha b hb => ?_⟩
      rcases List.mem_append.mp ha with ha | ha
      · exact hsy a ha b hb
      · exact hxy a ha b hb
  refine ⟨rfl, h12, h21, ?_, ?_, ?_⟩
  · simp [useFeed.fetchPostsRace, useFeed.fetchPostsResume, useFeed.fetchPostsBegin,
      JsVal.truthy]
  · rw [h12]
    exact hsplit d₁ d₂
  · rw [h12, h21, hsplit d₁ d₂, hsplit d₂ d₁]
    constructor
    · rintro ⟨hs, h1, h2, hs1, hs2, h12⟩
      exact ⟨hs, h2, h1, hs2, hs1, fun a ha b hb => by
        rw [strictEq_comm]; exact h12 b hb a ha⟩
    · rintro ⟨hs, h2, h1, hs2, hs1, h21⟩
      exact ⟨hs, h1, h2, hs1, hs2, fun a ha b hb => by
        rw [strictEq_comm]; exact h21 b hb a ha⟩

/-! ## C4: callbacks that fire after `logout` -/

/-- C4, as stated, fails: after `logout` on the initial store, a late
`addToFeed`, `addNotification` or `addMessage` leaves one entry in the feed,
the notifications and the messages. -/
theorem c4_late_callback_counterexample :
    (useStore.addToFeed [samplePost] (useStore.logoutSet useStore.initial)).feed.length = 1 ∧
      (useStore.setFeed [samplePost] (useStore.logoutSet useStore.initial)).feed.length = 1 ∧
      (useStore.appendToFeed [samplePost]
        (useStore.logoutSet useStore.initial)).feed.length = 1 ∧
      (useStore.addNotification sampleNotification
        (useStore.logoutSet useStore.initial)).notifications.length = 1 ∧
      (useStore.addMessage sampleMessage
        (useStore.logoutSet useStore.initial)).messages.length = 1 := by
  decide

/-- C4, amended: in the state `logout` leaves, feed, notifications, messages
and conversations are empty, and the store actions carry no mounted or
subscribed check, so a callback that fires afterwards takes effect: `setFeed`,
`addToFeed` and `appendToFeed` leave the feed equal to the posts they were
given, `addNotification(n)` leaves exactly `[n]` (recounting the unread
entries) and `addMessage(m)` exactly `[m]`. -/
theorem c4_late_callback_repopulates (s : Store) (posts : List Obj) (n m : Obj) :
    (useStore.logoutSet s).feed = [] ∧
      (useStore.logoutSet s).notifications = [] ∧
      (useStore.logoutSet s).messages = [] ∧
      (useStore.logoutSet s).conversations = [] ∧
      (useStore.setFeed posts (useStore.logoutSet s)).feed = posts ∧
      (useStore.addToFeed posts (useStore.logoutSet s)).feed = posts ∧
      (useStore.appendToFeed posts (useStore.logoutSet s)).feed = posts ∧
      (useStore.addNotification n (useStore.logoutSet s)).notifications = [n] ∧
      (useStore.addNotification n (useStore.logoutSet s)).unreadCount
        = (if useStore.isUnread n then 1 else 0) ∧
      (useStore.addMessage m (useStore.logoutSet s)).messages = [m] := by
  refine ⟨rfl, rfl, rfl, rfl, rfl, ?_, rfl, rfl, ?_, rfl⟩
  · simp [useStore.addToFeed, useStore.logoutSet]
  · cases h : useStore.isUnread n <;>
      simp [useStore.addNotification, useStore.logoutSet, h]

/-! ## C5: a failed `fetchPosts` -/

/-- C5, as stated, fails: `fetchPosts(true)` on a state whose cursor is at
page 1 sets the cursor to 0 before the query, and a failing query leaves it
there. -/
theorem c5_failed_reset_counterexample :
    (QueryResult.response none sampleError).failed = true ∧
      loadedFeed.page = 1 ∧
      (useFeed.fetchPosts true (.response none sampleError) loadedFeed).page = 0 ∧
      (useFeed.fetchPosts true (.rejected sampleError) loadedFeed).page = 0 := by
  decide

/-- C5, amended: when the query of `fetchPosts` fails (truthy `error`, or a
rejection), `posts` and `hasMore` are what they were before the call, for
`reset = true` and `reset = false`; `page` is what it was for `reset = false`
and is 0 for `reset = true`, where the cursor is restarted before the query;
`loading` and `refreshing` end false. -/
theorem c5_failed_fetch_keeps_list (reset : Bool) (r : QueryResult) (s : FeedState)
    (hfail : r.failed = true) :
    (useFeed.fetchPosts reset r s).posts = s.posts ∧
      (useFeed.fetchPosts reset r s).hasMore = s.hasMore ∧
      (useFeed.fetchPosts reset r s).page = (if reset then 0 else s.page) ∧
      (useFeed.fetchPosts reset r s).loading = false ∧
      (useFeed.fetchPosts reset r s).refreshing = false := by
  cases r with
  | rejected e =>
    cases reset <;> simp [useFeed.fetchPosts, useFeed.fetchPostsResume, useFeed.fetchPostsBegin]
  | response data error =>
    have herr : error.truthy = true := hfail
    cases reset <;>
      simp [useFeed.fetchPosts, useFeed.fetchPostsResume, useFeed.fetchPostsBegin, herr]

/-- C5, amended, at a concrete input: a load-more on `loadedFeed` whose query
returns an error. -/
theorem c5_failed_fetch_keeps_list_witness :
    (useFeed.fetchPosts false (.response none sampleError) loadedFeed).posts
        = loadedFeed.posts ∧
      (useFeed.fetchPosts false (.response none sampleError) loadedFeed).hasMore
        = loadedFeed.hasMore ∧
      (useFeed.fetchPosts false (.response none sampleError) loadedFeed).page
        = (if false then 0 else loadedFeed.page) ∧
      (useFeed.fetchPosts false (.response none sampleError) loadedFeed).loading = false ∧
      (useFeed.fetchPosts false (.response none sampleError) loadedFeed).refreshing = false :=
  c5_failed_fetch_keeps_list false (.response none sampleError) loadedFeed (by decide)

/-! ## C6, C7: `logout` -/

/-- C6: from every store state, once `signOut` has resolved, `logout` completes
and leaves `user`, `session` and `profile` null, `isAuthenticated` false, and
`feed`, `notifications`, `messages` and `conversations` empty. -/
theorem c6_logout_wipes (s : Store) (v : JsVal) :
    useStore.logout (.resolved v) s = .ok (useStore.logoutSet s) ∧
      (useStore.logoutSet s).user = .null ∧
      (useStore.logoutSet s).session = .null ∧
      (useStore.logoutSet s).profile = .null ∧
      (useStore.logoutSet s).isAuthenticated = false ∧
      (useStore.logoutSet s).feed = [] ∧
      (useStore.logoutSet s).notifications = [] ∧
      (useStore.logoutSet s).messages = [] ∧
      (useStore.logoutSet s).conversations = [] :=
  ⟨rfl, rfl, rfl, rfl, rfl, rfl, rfl, rfl, rfl⟩

/-- C7: `logout` is idempotent: for every store state, two consecutive
`logout` calls end in the same state, field for field, as one call. -/
theorem c7_logout_idempotent (s : Store) (v w : JsVal) :
    (useStore.logout (.resolved v) s >>= useStore.logout (.resolved w))
        = useStore.logout (.resolved v) s ∧
      useStore.logoutSet (useStore.logoutSet s) = useStore.logoutSet s :=
  ⟨rfl, rfl⟩

/-! ## C8: `setAuthState` -/

/-- C8: `setAuthState(user, session, profile)` stores exactly the given user,
session and profile in one update that leaves every collection alone, and
sets `isAuthenticated` to `!!user`: true for every user object, false when the
user is `null` or `undefined`. The action is total: no input raises. -/
theorem c8_setAuthState (user session profile : JsVal) (s : Store) :
    (useStore.setAuthState user session profile s).user = user ∧
      (useStore.setAuthState user session profile s).session = session ∧
      (useStore.setAuthState user session profile s).profile = profile ∧
      (useStore.setAuthState user session profile s).isAuthenticated = user.truthy ∧
      (useStore.setAuthState user session profile s).authLoading = false ∧
      (∀ fields, (useStore.setAuthState (.obj fields) session profile s).isAuthenticated
        = true) ∧
      (useStore.setAuthState .null session profile s).isAuthenticated = false ∧
      (useStore.setAuthState .undefined session profile s).isAuthenticated = false ∧
      (useStore.setAuthState user session profile s).feed = s.feed ∧
      (useStore.setAuthState user session profile s).notifications = s.notifications ∧
      (useStore.setAuthState user session profile s).messages = s.messages ∧
      (useStore.setAuthState user session profile s).conversations = s.conversations :=
  ⟨rfl, rfl, rfl, rfl, rfl, fun _ => rfl, rfl, rfl, rfl, rfl, rfl, rfl⟩

/-! ## C9, C10: `updatePostInFeed` -/

/-- C9: on a feed with pairwise distinct ids that holds `postId`,
`updatePostInFeed(postId, updates)` changes one entry: the feed splits as
`before ++ p :: after` where `p` is the only entry with that id, and the new
feed is `before ++ {...p, ...updates} :: after`, of the same length. In the
new entry every property the patch does not name keeps the value it has in
`p`, and every property of a patch without repeated keys has the value of the
patch. -/
theorem c9_updatePostInFeed_one_entry (s : Store) (postId : JsVal) (updates : Obj)
    (hdist : DistinctIds s.feed) (hmem : ∃ p ∈ s.feed, Obj.hasId postId p = true) :
    (useStore.updatePostInFeed postId updates s).feed.length = s.feed.length ∧
      idCount postId s.feed = 1 ∧
      ∃ before p after, s.feed = before ++ p :: after ∧
        Obj.hasId postId p = true ∧
        (∀ q ∈ before ++ after, Obj.hasId postId q = false) ∧
        (useStore.updatePostInFeed postId updates s).feed
          = before ++ Obj.spread p updates :: after ∧
        (∀ k, (∀ kv ∈ updates, kv.1 ≠ k) →
          Obj.get (Obj.spread p updates) k = Obj.get p k) ∧
        (updates.Pairwise (fun x y => x.1 ≠ y.1) →
          ∀ kv ∈ updates, Obj.get (Obj.spread p updates) kv.1 = kv.2) := by
  obtain ⟨before, p, after, hfeed, hp, hothers, hmap⟩ :=
    map_update_decomp postId updates s.feed hdist hmem
  refine ⟨?_, ?_, before, p, after, hfeed, hp, hothers, hmap, ?_, ?_⟩
  · show (s.feed.map _).length = _
    rw [List.length_map]
  · have hb : ∀ q ∈ before, Obj.hasId postId q = false :=
      fun q hq => hothers q (List.mem_append_left _ hq)
    have ha : ∀ q ∈ after, Obj.hasId postId q = false :=
      fun q hq => hothers q (List.mem_append_right _ hq)
    have hb0 : List.countP (Obj.hasId postId) before = 0 :=
      List.countP_eq_zero.mpr (fun q hq => by simp [hb q hq])
    have ha0 : List.countP (Obj.hasId postId) after = 0 :=
      List.countP_eq_zero.mpr (fun q hq => by simp [ha q hq])
    rw [hfeed]
    simp [idCount, List.countP_append, List.countP_cons, hp, hb0, ha0]
  · exact fun k hk => get_spread_of_not_mem p updates k hk
  · exact fun huniq => get_spread_of_mem p updates huniq

/-- C9 at a concrete input: a like-count patch for post 1 in the feed
`[samplePost, otherPost]`. -/
theorem c9_updatePostInFeed_one_entry_witness :
    (useStore.updatePostInFeed (.num 1) [("likes_count", .num 4)]
        (useStore.setFeed [samplePost, otherPost] useStore.initial)).feed.length
      = (useStore.setFeed [samplePost, otherPost] useStore.initial).feed.length ∧
    idCount (.num 1) (useStore.setFeed [samplePost, otherPost] useStore.initial).feed = 1 ∧
    (useStore.updatePostInFeed (.num 1) [("likes_count", .num 4)]
        (useStore.setFeed [samplePost, otherPost] useStore.initial)).feed
      = [[("id", .num 1), ("content", .str "hello"), ("likes_count", .num 4)], otherPost] :=
  have h := c9_updatePostInFeed_one_entry
    (useStore.setFeed [samplePost, otherPost] useStore.initial) (.num 1)
    [("likes_count", .num 4)] (by decide) ⟨samplePost, by simp [useStore.setFeed], by decide⟩
  ⟨h.1, h.2.1, rfl⟩

/-- C10: when no entry of the feed carries `postId`,
`updatePostInFeed(postId, updates)` returns the store unchanged: same feed,
nothing added, and no input raises. -/
theorem c10_updatePostInFeed_absent_noop (s : Store) (postId : JsVal) (updates : Obj)
    (habsent : ∀ p ∈ s.feed, Obj.hasId postId p = false) :
    useStore.updatePostInFeed postId updates s = s ∧
      (useStore.updatePostInFeed postId updates s).feed = s.feed := by
  have hfeed : (useStore.updatePostInFeed postId updates s).feed = s.feed :=
    map_update_of_absent postId updates s.feed habsent
  refine ⟨?_, hfeed⟩
  have hupd : useStore.updatePostInFeed postId updates s
      = { s with feed := (useStore.updatePostInFeed postId updates s).feed } := rfl
  rw [hupd, hfeed]

/-- C10 at a concrete input: an UPDATE for post 5 on a feed that holds only
post 1. -/
theorem c10_updatePostInFeed_absent_noop_witness :
    useStore.updatePostInFeed (.num 5) [("likes_count", .num 4)]
        (useStore.setFeed [samplePost] useStore.initial)
      = useStore.setFeed [samplePost] useStore.initial ∧
    (useStore.updatePostInFeed (.num 5) [("likes_count", .num 4)]
        (useStore.setFeed [samplePost] useStore.initial)).feed
      = (useStore.setFeed [samplePost] useStore.initial).feed :=
  c10_updatePostInFeed_absent_noop (useStore.setFeed [samplePost] useStore.initial)
    (.num 5) [("likes_count", .num 4)] (by decide)

/-! ## C11: a like followed by an UPDATE merged with `updatePostInFeed` -/

theorem updateWhere_eq_map (postId : JsVal) (f : Obj → Option Obj) (rows : List Obj)
    (h : ∀ q ∈ rows, JsVal.strictEq (Obj.id q) postId = true → (f q).isSome = true) :
    updateWhere postId f rows
      = some (rows.map (fun q =>
          if JsVal.strictEq (Obj.id q) postId then (f q).getD q else q)) := by
  induction rows with
  | nil => rfl
  | cons q rest ih =>
    have hrest := ih (fun x hx => h x (List.mem_cons_of_mem _ hx))
    cases hq : JsVal.strictEq (Obj.id q) postId with
    | false => simp [updateWhere, hq, hrest]
    | true =>
      have hsome := h q (List.mem_cons_self _ _) hq
      obtain ⟨y, hy⟩ := Option.isSome_iff_exists.mp hsome
      simp [updateWhere, hq, hrest, hy]

theorem addExact_of_range (n k : Int)
    (hn : -JsVal.maxExact ≤ n ∧ n ≤ JsVal.maxExact)
    (hk : -JsVal.maxExact ≤ k ∧ k ≤ JsVal.maxExact)
    (hsum : -JsVal.maxExact ≤ n + k ∧ n + k ≤ JsVal.maxExact) :
    JsVal.addExact n k = some (n + k) := by
  unfold JsVal.addExact
  unfold JsVal.maxExact at *
  rw [if_pos ⟨hn.1, hn.2, hk.1, hk.2⟩, if_neg (by omega), if_neg (by omega), if_pos hsum]

theorem likeEntry_of_count (userId : JsVal) (post : Obj) (c : Int)
    (h0 : 0 ≤ c) (h1 : c < JsVal.maxExact)
    (h : Obj.get post "likes" = countColumn (.num c)) :
    useFeed.likeEntry userId post
      = some (Obj.spread post
          [("likes", countColumn (.num (c + 1))),
            ("user_liked", .arr [.obj [("user_id", userId)]])]) := by
  have hadd : JsVal.addExact c 1 = some (c + 1) := by
    apply addExact_of_range <;> unfold JsVal.maxExact at * <;> omega
  by_cases hc : c = 0
  · subst hc
    have hadd0 : JsVal.addExact 0 1 = some 1 := by simpa using hadd
    simp [useFeed.likeEntry, countOr, h, countColumn, JsVal.index0, JsVal.optProp,
      JsVal.orElse, JsVal.truthy, JsVal.plus, get_cons, hadd0]
  · simp [useFeed.likeEntry, countOr, h, countColumn, JsVal.index0, JsVal.optProp,
      JsVal.orElse, JsVal.truthy, JsVal.plus, get_cons, hc, hadd]

theorem spread_like_keys (q : Obj) (x y : JsVal) :
    Obj.get (Obj.spread q [("likes", x), ("user_liked", y)]) "likes" = x ∧
      Obj.get (Obj.spread q [("likes", x), ("user_liked", y)]) "user_liked" = y ∧
      Obj.id (Obj.spread q [("likes", x), ("user_liked", y)]) = Obj.id q := by
  have hkeys : List.Pairwise (fun a b : String × JsVal => a.1 ≠ b.1)
      [("likes", x), ("user_liked", y)] := by
    simp
  refine ⟨get_spread_of_mem q _ hkeys ("likes", _) (List.mem_cons_self _ _),
    get_spread_of_mem q _ hkeys ("user_liked", _)
      (List.mem_cons_of_mem _ (List.mem_cons_self _ _)), ?_⟩
  apply get_spread_of_not_mem
  intro kv hkv
  simp only [List.mem_cons, List.mem_singleton, List.not_mem_nil, or_false] at hkv
  rcases hkv with rfl | rfl
  · show "likes" ≠ "id"
    decide
  · show "user_liked" ≠ "id"
    decide

theorem likePost_like_branch (postId user existing r : JsVal) (s : FeedState)
    (huser : user.truthy = true) (hlike : existing.truthy = false) :
    (useFeed.likePost postId ⟨.resolved user, .resolved existing, .resolved r⟩ s).2
      = (updateWhere postId (useFeed.likeEntry (user.optProp "id")) s.posts).map
          (fun ps => { s with posts := ps }) := by
  simp [useFeed.likePost, huser, hlike]

theorem like_rows (postId userId : JsVal) (rows : List Obj)
    (hcount : ∀ q ∈ rows, Obj.hasId postId q = true →
      ∃ c : Int, 0 ≤ c ∧ c < JsVal.maxExact ∧ Obj.get q "likes" = countColumn (.num c)) :
    updateWhere postId (useFeed.likeEntry userId) rows
      = some (rows.map (fun q =>
          if JsVal.strictEq (Obj.id q) postId then (useFeed.likeEntry userId q).getD q
          else q)) := by
  apply updateWhere_eq_map
  intro q hq hid
  obtain ⟨c, h0, h1, hc⟩ := hcount q hq hid
  rw [likeEntry_of_count userId q c h0 h1 hc]
  rfl

theorem like_row_at (postId userId : JsVal) (rows : List Obj) (i : Nat) (q : Obj) (c : Int)
    (hi : rows[i]? = some q) (hid : Obj.hasId postId q = true)
    (h0 : 0 ≤ c) (h1 : c < JsVal.maxExact)
    (hc : Obj.get q "likes" = countColumn (.num c)) :
    (rows.map (fun q =>
        if JsVal.strictEq (Obj.id q) postId then (useFeed.likeEntry userId q).getD q
        else q))[i]?
      = some (Obj.spread q
          [("likes", countColumn (.num (c + 1))),
            ("user_liked", .arr [.obj [("user_id", userId)]])]) := by
  have hidq : JsVal.strictEq (Obj.id q) postId = true := hid
  rw [List.getElem?_map, hi]
  simp [hidq, likeEntry_of_count userId q c h0 h1 hc]

theorem count_of_column (q : Obj) (c c₁ : Int)
    (h : Obj.get q "likes" = countColumn (.num c))
    (h₁ : Obj.get q "likes" = countColumn (.num c₁)) : c₁ = c := by
  rw [h] at h₁
  simpa [countColumn] using h₁.symm

/-- C11 (the claim fails): post 5 with like count 3 is liked in the list of the
hook (count 4); the UPDATE of that post, carrying the confirmed count 5,
reaches no handler, so the list of the hook still shows 4, not 5. And at the
like count `2^53` the like does not give `c + 1`: the count stays `2^53`. -/
theorem c11_update_ignored_counterexample :
    (useFeed.likePost (.num 5) succeedingLike
          { useFeed.initial with posts := [likedPost] }).2.map
        (fun liked => (useFeed.onRealtimeEvent .update
          [("id", .num 5), ("likes", countColumn (.num 5))] liked).posts)
      = some [[("id", .num 5), ("likes", countColumn (.num 4)),
          ("user_liked", .arr [.obj [("user_id", .str "u1")]])]] ∧
      countColumn (.num 4) ≠ countColumn (.num 5) ∧
      (useFeed.likePost (.num 5) succeedingLike
            { useFeed.initial with posts := [popularPost] }).2.map
          (fun liked => liked.posts.map (fun q => Obj.get q "likes"))
        = some [countColumn (.num 9007199254740992)] := by
  refine ⟨rfl, ?_, rfl⟩
  simp [countColumn]

/-- C11 (amended): in the list of the hook, whose entries with id `postId`
carry like counts `c` with `0 ≤ c < 2^53`, the like branch of `likePost`
succeeds and turns count `c` into `c + 1` with `user_liked` set, and an UPDATE
event of the posts channel leaves that entry as it is, whatever the event
carries. In the feed of the store (another list, which `likePost` does not
take), `updatePostInFeed` with a patch carrying the like count `v` leaves the
like count of every entry with id `postId` equal to `v`. -/
theorem c11_like_then_update (s : FeedState) (postId user existing r : JsVal) (v : Int)
    (updates : Obj)
    (huser : user.truthy = true) (hlike : existing.truthy = false)
    (huniq : updates.Pairwise (fun x y => x.1 ≠ y.1))
    (hpatch : ("likes", countColumn (.num v)) ∈ updates)
    (hcount : ∀ q ∈ s.posts, Obj.hasId postId q = true →
      ∃ c : Int, 0 ≤ c ∧ c < JsVal.maxExact ∧ Obj.get q "likes" = countColumn (.num c)) :
    (∃ liked : FeedState,
      (useFeed.likePost postId ⟨.resolved user, .resolved existing, .resolved r⟩ s).2
          = some liked ∧
        liked.posts.length = s.posts.length ∧
        ∀ (i : Nat) (q : Obj) (c : Int), s.posts[i]? = some q →
          Obj.hasId postId q = true → Obj.get q "likes" = countColumn (.num c) →
          ∃ q₁ : Obj, liked.posts[i]? = some q₁ ∧
            Obj.get q₁ "likes" = countColumn (.num (c + 1)) ∧
            Obj.get q₁ "user_liked" = .arr [.obj [("user_id", user.optProp "id")]] ∧
            ∀ payloadNew : Obj,
              (useFeed.onRealtimeEvent .update payloadNew liked).posts[i]? = some q₁) ∧
      ∀ (st : Store) (i : Nat) (q : Obj), st.feed[i]? = some q →
        Obj.hasId postId q = true →
        ∃ q₂ : Obj, (useStore.updatePostInFeed postId updates st).feed[i]? = some q₂ ∧
          Obj.get q₂ "likes" = countColumn (.num v) := by
  constructor
  · refine ⟨{ s with posts := s.posts.map (fun q =>
        if JsVal.strictEq (Obj.id q) postId
        then (useFeed.likeEntry (user.optProp "id") q).getD q else q) }, ?_, ?_, ?_⟩
    · rw [likePost_like_branch postId user existing r s huser hlike,
        like_rows postId _ s.posts hcount]
      rfl
    · show (List.map _ _).length = _
      rw [List.length_map]
    · intro i q c hi hid hc
      obtain ⟨c₁, h0, h1, hc₁⟩ := hcount q (List.getElem?_mem hi) hid
      have hcc : c₁ = c := count_of_column q c c₁ hc hc₁
      subst hcc
      have hkeys := spread_like_keys q (countColumn (.num (c₁ + 1)))
        (.arr [.obj [("user_id", user.optProp "id")]])
      have hrow := like_row_at postId (user.optProp "id") s.posts i q c₁ hi hid h0 h1 hc
      exact ⟨_, hrow, hkeys.1, hkeys.2.1, fun _ => hrow⟩
  · intro st i q hi hid
    have hidq : JsVal.strictEq (Obj.id q) postId = true := hid
    refine ⟨Obj.spread q updates, ?_, get_spread_of_mem q updates huniq ("likes", _) hpatch⟩
    show (List.map _ _)[i]? = _
    rw [List.getElem?_map, hi]
    simp [hidq]

/-- C11 at the example of the claim: post 5 with like count 3 is liked in the
list of the hook (count 4), an UPDATE event leaves the list as it is; a store
feed holding the post takes the count of the patch. -/
theorem c11_like_then_update_witness :
    (∃ liked : FeedState,
      (useFeed.likePost (.num 5) ⟨.resolved sampleUser, .resolved .null,
          .resolved (.obj [("error", .null)])⟩
          { useFeed.initial with posts := [likedPost] }).2 = some liked ∧
        liked.posts.length = 1) ∧
      (useStore.updatePostInFeed (.num 5) [("likes", countColumn (.num 4))]
          (useStore.setFeed [likedPost] useStore.initial)).feed
        = [[("id", .num 5), ("likes", countColumn (.num 4)), ("user_liked", .arr [])]] :=
  have h := c11_like_then_update { useFeed.initial with posts := [likedPost] }
    (.num 5) sampleUser .null (.obj [("error", .null)]) 4 [("likes", countColumn (.num 4))]
    rfl rfl (by simp) (by simp)
    (fun q hq _ => ⟨3, by decide, by decide, by
      have : q = likedPost := by simpa [useFeed.initial] using hq
      subst this
      rfl⟩)
  ⟨h.1.elim (fun liked hl => ⟨liked, hl.1, hl.2.1⟩), rfl⟩

/-! ## C12: the realtime INSERT for a message that was just sent -/

theorem idCount_map_read_at (x target : JsVal) (now : String) (rows : List Obj) :
    idCount x (rows.map (fun msg =>
      if JsVal.strictEq (Obj.id msg) target then Obj.spread msg [("read_at", .str now)]
      else msg)) = idCount x rows := by
  unfold idCount
  rw [List.countP_map]
  apply List.countP_congr
  intro msg _
  have hid : Obj.id (Obj.spread msg [("read_at", .str now)]) = Obj.id msg := by
    apply get_spread_of_not_mem
    intro kv hkv
    rw [List.mem_singleton] at hkv
    subst hkv
    show "read_at" ≠ "id"
    decide
  cases h : JsVal.strictEq (Obj.id msg) target <;> simp [Obj.hasId, h, hid]

theorem idCount_append_singleton (x : JsVal) (rows : List Obj) (m : Obj)
    (h : Obj.hasId x m = true) : idCount x (rows ++ [m]) = idCount x rows + 1 := by
  simp [idCount, List.countP_append, List.countP_cons, h]

theorem chat_onInsert_messages (user err : JsVal) (now : String) (m : Obj) (s : ChatState) :
    (ChatDetailScreen.onInsert user now (.response (some m) err) s).messages
        = s.messages ++ [m] ∨
      (ChatDetailScreen.onInsert user now (.response (some m) err) s).messages
        = (s.messages ++ [m]).map (fun msg =>
            if JsVal.strictEq (Obj.id msg) (Obj.id m) then
              Obj.spread msg [("read_at", .str now)]
            else msg) := by
  cases hcond : (JsVal.strictEq (Obj.get m "receiver_id") (user.optProp "id")
      && !(Obj.get m "read_at").truthy)
  · left
    cases user <;> simp [ChatDetailScreen.onInsert, hcond]
  · cases user
    case undefined => left; rfl
    case null => left; rfl
    all_goals
      right
      simp [ChatDetailScreen.onInsert, hcond]

theorem canSend_nbsp_text (user userId : JsVal) :
    ChatDetailScreen.canSend (String.mk [Char.ofNat 160, Char.ofNat 8195, ' ']) user userId
      = false := by
  have h : ChatDetailScreen.isBlank (String.mk [Char.ofNat 160, Char.ofNat 8195, ' '])
      = true := by decide
  simp [ChatDetailScreen.canSend, h]

/-- C12, as stated, fails: `handleSendMessage` appends the returned row 9, and
the realtime INSERT for message 9, whose re-fetch returns the same row,
appends it again; the list then holds two entries with id 9. -/
theorem c12_insert_after_send_counterexample :
    (ChatDetailScreen.handleSendMessage sampleUser (.str "u2")
        (.response (some sentMessage) .null) typingChat).map (fun s => s.messages.length)
      = some 1 ∧
    (ChatDetailScreen.handleSendMessage sampleUser (.str "u2")
        (.response (some sentMessage) .null) typingChat).map
        (fun s => idCount (Obj.id sentMessage)
          (ChatDetailScreen.onInsert sampleUser "2024-01-01T00:00:00.000Z"
            (.response (some sentMessage) .null) s).messages)
      = some 2 := by
  decide

/-- C12, amended: when `handleSendMessage` has appended the returned message
`m`, the realtime INSERT whose re-fetch returns a row with the same id appends
that row as a further entry: the list is two entries longer than before the
send and holds two more entries with the id of `m`. -/
theorem c12_insert_after_send_appends (user userId err err₂ : JsVal) (now : String)
    (s : ChatState) (m m₂ : Obj)
    (hguard : ChatDetailScreen.canSend s.newMessage user userId = true)
    (herr : err.truthy = false)
    (hprim : (Obj.id m).isPrimitive = true)
    (hsame : Obj.hasId (Obj.id m) m₂ = true) :
    ∃ sent : ChatState,
      ChatDetailScreen.handleSendMessage user userId (.response (some m) err) s = some sent ∧
      sent.messages = s.messages ++ [m] ∧
      (ChatDetailScreen.onInsert user now (.response (some m₂) err₂) sent).messages.length
        = s.messages.length + 2 ∧
      idCount (Obj.id m)
          (ChatDetailScreen.onInsert user now (.response (some m₂) err₂) sent).messages
        = idCount (Obj.id m) s.messages + 2 := by
  have hm : Obj.hasId (Obj.id m) m = true := strictEq_self_of_isPrimitive _ hprim
  refine ⟨{ s with messages := s.messages ++ [m], newMessage := "", sending := false },
    ?_, rfl, ?_, ?_⟩
  · simp [ChatDetailScreen.handleSendMessage, hguard, herr]
  · rcases chat_onInsert_messages user err₂ now m₂
        { s with messages := s.messages ++ [m], newMessage := "", sending := false }
      with h | h <;> rw [h] <;> simp [List.length_append]
  · have hbase : idCount (Obj.id m) (s.messages ++ [m] ++ [m₂])
        = idCount (Obj.id m) s.messages + 2 := by
      rw [idCount_append_singleton _ _ _ hsame, idCount_append_singleton _ _ _ hm]
    rcases chat_onInsert_messages user err₂ now m₂
        { s with messages := s.messages ++ [m], newMessage := "", sending := false }
      with h | h <;> rw [h]
    · exact hbase
    · exact (idCount_map_read_at _ _ _ _).trans hbase

/-- C12, amended, at a concrete input: the message 9 sent from `typingChat`,
then the INSERT event for message 9. -/
theorem c12_insert_after_send_appends_witness :
    ∃ sent : ChatState,
      ChatDetailScreen.handleSendMessage sampleUser (.str "u2")
        (.response (some sentMessage) .null) typingChat = some sent ∧
      sent.messages = typingChat.messages ++ [sentMessage] ∧
      (ChatDetailScreen.onInsert sampleUser "2024-01-01T00:00:00.000Z"
        (.response (some sentMessage) .null) sent).messages.length
        = typingChat.messages.length + 2 ∧
      idCount (Obj.id sentMessage)
          (ChatDetailScreen.onInsert sampleUser "2024-01-01T00:00:00.000Z"
            (.response (some sentMessage) .null) sent).messages
        = idCount (Obj.id sentMessage) typingChat.messages + 2 :=
  c12_insert_after_send_appends sampleUser (.str "u2") .null .null
    "2024-01-01T00:00:00.000Z" typingChat sentMessage sentMessage
    (by decide) (by decide) (by decide) (by decide)

/-! ## C13: `hasMore` after a successful page -/

theorem repliesOf_resolved (replies : Obj → Awaited JsVal) (d : List Obj)
    (h : ∀ c ∈ d, ∃ v, replies c = .resolved v) :
    ∃ pairs, CommentsScreen.repliesOf replies d = some pairs ∧ pairs.map Prod.fst = d := by
  induction d with
  | nil => exact ⟨[], rfl, rfl⟩
  | cons c rest ih =>
    obtain ⟨v, hv⟩ := h c (List.mem_cons_self _ _)
    obtain ⟨pairs, hp, hfst⟩ := ih (fun x hx => h x (List.mem_cons_of_mem _ hx))
    exact ⟨(c, v) :: pairs, by simp [CommentsScreen.repliesOf, hv, hp], by simp [hfst]⟩

theorem enrichAll_some (pairs : List (Obj × JsVal))
    (h : ∀ cv ∈ pairs,
      (CommentsScreen.likedFlag (Obj.get cv.1 "user_liked")).isSome = true) :
    ∃ cs, CommentsScreen.enrichAll pairs = some cs ∧ cs.length = pairs.length := by
  induction pairs with
  | nil => exact ⟨[], rfl, rfl⟩
  | cons cv rest ih =>
    obtain ⟨c, v⟩ := cv
    obtain ⟨cs, hcs, hlen⟩ := ih (fun x hx => h x (List.mem_cons_of_mem _ hx))
    obtain ⟨l, hl⟩ := Option.isSome_iff_exists.mp (h (c, v) (List.mem_cons_self _ _))
    have hl' : CommentsScreen.likedFlag (Obj.get c "user_liked") = some l := hl
    exact ⟨Obj.spread c [("replies", v.orElse (.arr [])), ("liked", l)] :: cs,
      by simp [CommentsScreen.enrichAll, CommentsScreen.withReplies, hl', hcs],
      by simp [hlen]⟩

/-- C13: after a successful page fetch `hasMore` is `(row count == page size)`:
`fetchPosts` sets it to `rows.length == 10`, and `fetchComments`, whose replies
queries all resolved, completes and sets it to `rows.length == 20`; a shorter
page sets it to false. -/
theorem c13_hasMore_is_full_page (reset : Bool) (error : JsVal) (posts comments : List Obj)
    (replies : Obj → Awaited JsVal) (s : FeedState) (cs : CommentsState)
    (herr : error.truthy = false)
    (hreplies : ∀ c ∈ comments, ∃ v, replies c = .resolved v)
    (hshape : ∀ c ∈ comments,
      (CommentsScreen.likedFlag (Obj.get c "user_liked")).isSome = true) :
    (useFeed.fetchPosts reset (.response (some posts) error) s).hasMore
        = (posts.length == 10) ∧
      (posts.length < 10 →
        (useFeed.fetchPosts reset (.response (some posts) error) s).hasMore = false) ∧
      ∃ cs₁ : CommentsState,
        CommentsScreen.fetchComments reset (.response (some comments) error) replies cs
          = some cs₁ ∧
        cs₁.hasMore = (comments.length == 20) ∧
        (comments.length < 20 → cs₁.hasMore = false) := by
  have hposts : (useFeed.fetchPosts reset (.response (some posts) error) s).hasMore
      = (posts.length == 10) := by
    cases reset <;>
      simp [useFeed.fetchPosts, useFeed.fetchPostsResume, useFeed.fetchPostsBegin, herr]
  obtain ⟨pairs, hpairs, hfst⟩ := repliesOf_resolved replies comments hreplies
  have hshape₂ : ∀ cv ∈ pairs,
      (CommentsScreen.likedFlag (Obj.get cv.1 "user_liked")).isSome = true := by
    intro cv hcv
    apply hshape
    rw [← hfst]
    exact List.mem_map_of_mem _ hcv
  obtain ⟨enriched, henriched, _⟩ := enrichAll_some pairs hshape₂
  refine ⟨hposts, ?_, ?_⟩
  · intro hlt
    rw [hposts]
    simp
    omega
  · have hrun : CommentsScreen.fetchComments reset (.response (some comments) error)
        replies cs
        = some { comments :=
                  if reset then enriched
                  else (CommentsScreen.fetchCommentsBegin reset cs).comments ++ enriched
                 loading := false
                 page := (CommentsScreen.fetchCommentsBegin reset cs).page + 1
                 hasMore := comments.length == 20 } := by
      simp [CommentsScreen.fetchComments, CommentsScreen.fetchCommentsResume, herr,
        hpairs, henriched]
    refine ⟨_, hrun, rfl, ?_⟩
    intro hlt
    simp
    omega

/-- C13 at a concrete input: a page of one post and a page of one comment. -/
theorem c13_hasMore_is_full_page_witness :
    (useFeed.fetchPosts true (.response (some [samplePost]) .null) useFeed.initial).hasMore
        = ([samplePost].length == 10) ∧
      ∃ cs₁ : CommentsState,
        CommentsScreen.fetchComments true (.response (some [sampleComment]) .null) noReplies
          CommentsScreen.initial = some cs₁ ∧
        cs₁.hasMore = ([sampleComment].length == 20) :=
  have h := c13_hasMore_is_full_page true .null [samplePost] [sampleComment] noReplies
    useFeed.initial CommentsScreen.initial (by decide) (fun _ _ => ⟨_, rfl⟩)
    (fun c hc => by
      have : c = sampleComment := by simpa using hc
      subst this
      decide)
  ⟨h.1, h.2.2.elim (fun cs₁ hc => ⟨cs₁, hc.1, hc.2.1⟩)⟩

/-! ## C14: offsets and merge mode of `fetchPosts` -/

theorem fetchNextPages_page_posts (pages : List (List Obj)) (s : FeedState) :
    (useFeed.fetchNextPages pages s).page = s.page + pages.length ∧
      (useFeed.fetchNextPages pages s).posts = s.posts ++ pages.flatten := by
  induction pages generalizing s with
  | nil => simp [useFeed.fetchNextPages]
  | cons d rest ih =>
    have hstep := ih (useFeed.fetchPosts false (.response (some d) .null) s)
    have hpage : (useFeed.fetchPosts false (.response (some d) .null) s).page = s.page + 1 := by
      simp [useFeed.fetchPosts, useFeed.fetchPostsResume, useFeed.fetchPostsBegin, JsVal.truthy]
    have hposts : (useFeed.fetchPosts false (.response (some d) .null) s).posts
        = s.posts ++ d := by
      simp [useFeed.fetchPosts, useFeed.fetchPostsResume, useFeed.fetchPostsBegin, JsVal.truthy]
    show (useFeed.fetchNextPages rest
        (useFeed.fetchPosts false (.response (some d) .null) s)).page = _ ∧
      (useFeed.fetchNextPages rest
        (useFeed.fetchPosts false (.response (some d) .null) s)).posts = _
    rw [hstep.1, hstep.2, hpage, hposts]
    constructor
    · simp only [List.length_cons]
      omega
    · simp

/-- C14: `fetchPosts` requests `[start, start + 9]` with `start = 0` for
`reset = true` and `start = page * 10` otherwise. On success a reset makes the
list the returned rows with the cursor at 1 (restarted, then advanced), a
load-more makes it the previous list followed by the rows with the cursor
advanced by one. After a refresh and `k` further successful loads the cursor
is `k + 1`, the next range is `[10 (k + 1), 10 (k + 1) + 9]` and the list is
all pages in order; no `fetchPosts(false)` lowers the cursor. -/
theorem c14_fetchPosts_offsets_and_merge (error : JsVal) (d : List Obj)
    (pages : List (List Obj)) (s : FeedState) (herr : error.truthy = false) :
    useFeed.fetchPostsRange true s = (0, 9) ∧
      useFeed.fetchPostsRange false s = (s.page * 10, s.page * 10 + 9) ∧
      (useFeed.fetchPosts true (.response (some d) error) s).posts = d ∧
      (useFeed.fetchPosts true (.response (some d) error) s).page = 1 ∧
      (useFeed.fetchPosts false (.response (some d) error) s).posts = s.posts ++ d ∧
      (useFeed.fetchPosts false (.response (some d) error) s).page = s.page + 1 ∧
      (useFeed.fetchNextPages pages
          (useFeed.fetchPosts true (.response (some d) error) s)).page = pages.length + 1 ∧
      useFeed.fetchPostsRange false
          (useFeed.fetchNextPages pages (useFeed.fetchPosts true (.response (some d) error) s))
        = (10 * (pages.length + 1), 10 * (pages.length + 1) + 9) ∧
      (useFeed.fetchNextPages pages
          (useFeed.fetchPosts true (.response (some d) error) s)).posts
        = d ++ pages.flatten ∧
      ∀ r, s.page ≤ (useFeed.fetchPosts false r s).page := by
  have hposts : (useFeed.fetchPosts true (.response (some d) error) s).posts = d := by
    simp [useFeed.fetchPosts, useFeed.fetchPostsResume, useFeed.fetchPostsBegin, herr]
  have hpage : (useFeed.fetchPosts true (.response (some d) error) s).page = 1 := by
    simp [useFeed.fetchPosts, useFeed.fetchPostsResume, useFeed.fetchPostsBegin, herr]
  have hseq := fetchNextPages_page_posts pages
    (useFeed.fetchPosts true (.response (some d) error) s)
  refine ⟨rfl, rfl, hposts, hpage, ?_, ?_, ?_, ?_, ?_, ?_⟩
  · simp [useFeed.fetchPosts, useFeed.fetchPostsResume, useFeed.fetchPostsBegin, herr]
  · simp [useFeed.fetchPosts, useFeed.fetchPostsResume, useFeed.fetchPostsBegin, herr]
  · rw [hseq.1, hpage]
    omega
  · simp only [useFeed.fetchPostsRange, hseq.1, hpage]
    simp
    omega
  · rw [hseq.2, hposts]
  · intro r
    cases r with
    | rejected e =>
      simp [useFeed.fetchPosts, useFeed.fetchPostsResume, useFeed.fetchPostsBegin]
    | response data err =>
      cases data <;> cases herr₂ : err.truthy <;>
        simp [useFeed.fetchPosts, useFeed.fetchPostsResume, useFeed.fetchPostsBegin, herr₂]

/-- C14 at a concrete input: a refresh that returns `[samplePost]`, then one
more page `[otherPost]`. -/
theorem c14_fetchPosts_offsets_and_merge_witness :
    (useFeed.fetchNextPages [[otherPost]]
        (useFeed.fetchPosts true (.response (some [samplePost]) .null) loadedFeed)).page
      = [[otherPost]].length + 1 ∧
    useFeed.fetchPostsRange false
        (useFeed.fetchNextPages [[otherPost]]
          (useFeed.fetchPosts true (.response (some [samplePost]) .null) loadedFeed))
      = (10 * ([[otherPost]].length + 1), 10 * ([[otherPost]].length + 1) + 9) ∧
    (useFeed.fetchNextPages [[otherPost]]
        (useFeed.fetchPosts true (.response (some [samplePost]) .null) loadedFeed)).posts
      = [samplePost] ++ [[otherPost]].flatten :=
  have h := c14_fetchPosts_offsets_and_merge .null [samplePost] [[otherPost]] loadedFeed
    (by decide)
  ⟨h.2.2.2.2.2.2.1, h.2.2.2.2.2.2.2.1, h.2.2.2.2.2.2.2.2.1⟩

/-! ## C15: `loadMore` at the end of the list -/

theorem loadMore_noop (r : QueryResult) (s : FeedState)
    (h : s.hasMore = false ∨ s.loading = true) : useFeed.loadMore r s = s := by
  rcases h with h | h <;> simp [useFeed.loadMore, h]

theorem loadMoreAll_noop (rs : List QueryResult) (s : FeedState)
    (h : s.hasMore = false ∨ s.loading = true) : useFeed.loadMoreAll rs s = s := by
  induction rs with
  | nil => rfl
  | cons r rest ih =>
    show useFeed.loadMoreAll rest (useFeed.loadMore r s) = s
    rw [loadMore_noop r s h, ih]

/-- C15: when `hasMore` is false or `loading` is true, `loadMore()` issues no
request and leaves the state as it is, however often it is called; and after
a successful page of fewer than 10 rows `hasMore` is false, so every later
`loadMore()` is such a call. -/
theorem c15_loadMore_noop_at_end (s : FeedState) (rs : List QueryResult)
    (h : s.hasMore = false ∨ s.loading = true) :
    useFeed.loadMoreRequest s = none ∧
      (∀ r, useFeed.loadMore r s = s) ∧
      useFeed.loadMoreAll rs s = s ∧
      ∀ (reset : Bool) (d : List Obj) (error : JsVal) (s₀ : FeedState),
        error.truthy = false → d.length < 10 →
        (useFeed.fetchPosts reset (.response (some d) error) s₀).hasMore = false ∧
        useFeed.loadMoreRequest (useFeed.fetchPosts reset (.response (some d) error) s₀)
          = none ∧
        useFeed.loadMoreAll rs (useFeed.fetchPosts reset (.response (some d) error) s₀)
          = useFeed.fetchPosts reset (.response (some d) error) s₀ := by
  refine ⟨?_, fun r => loadMore_noop r s h, loadMoreAll_noop rs s h, ?_⟩
  · rcases h with h | h <;> simp [useFeed.loadMoreRequest, h]
  · intro reset d error s₀ herr hlt
    have hmore : (useFeed.fetchPosts reset (.response (some d) error) s₀).hasMore = false := by
      cases reset <;>
        simp [useFeed.fetchPosts, useFeed.fetchPostsResume, useFeed.fetchPostsBegin, herr] <;>
        omega
    exact ⟨hmore, by simp [useFeed.loadMoreRequest, hmore],
      loadMoreAll_noop rs _ (Or.inl hmore)⟩

/-- C15 at the scenario of the spec: a page of 8 rows has been received, then
`loadMore()` is called twice. -/
theorem c15_loadMore_noop_at_end_witness :
    useFeed.loadMoreRequest
        (useFeed.fetchPosts false (.response (some (List.replicate 8 otherPost)) .null)
          loadedFeed) = none ∧
      useFeed.loadMoreAll
          [.response (some [otherPost]) .null, .response (some [otherPost]) .null]
          (useFeed.fetchPosts false (.response (some (List.replicate 8 otherPost)) .null)
            loadedFeed)
        = useFeed.fetchPosts false (.response (some (List.replicate 8 otherPost)) .null)
            loadedFeed :=
  have h := c15_loadMore_noop_at_end
    (useFeed.fetchPosts false (.response (some (List.replicate 8 otherPost)) .null) loadedFeed)
    [.response (some [otherPost]) .null, .response (some [otherPost]) .null]
    (Or.inl (by decide))
  ⟨h.1, h.2.2.1⟩

/-! ## C16: a realtime INSERT that arrives before the initial page -/

theorem idCount_eq_one_of_distinct (x : JsVal) (rows : List Obj)
    (hdist : DistinctIds rows) (hmem : ∃ q ∈ rows, Obj.hasId x q = true) :
    idCount x rows = 1 := by
  obtain ⟨before, p, after, hrows, hp, hothers, _⟩ :=
    map_update_decomp x [] rows hdist hmem
  have hb0 : List.countP (Obj.hasId x) before = 0 :=
    List.countP_eq_zero.mpr (fun q hq => by
      simp [hothers q (List.mem_append_left _ hq)])
  have ha0 : List.countP (Obj.hasId x) after = 0 :=
    List.countP_eq_zero.mpr (fun q hq => by
      simp [hothers q (List.mem_append_right _ hq)])
  rw [hrows]
  simp [idCount, List.countP_append, List.countP_cons, hp, hb0, ha0]

/-- C16: when the realtime INSERT of `p` arrives while the initial
`fetchPosts(true)` is in flight, and the page then arrives with rows sorted by
`created_at` descending, with pairwise distinct ids, one of them carrying the
id of `p`, the list after the completion is exactly the page: sorted by
`created_at` descending, with the id of `p` exactly once. -/
theorem c16_insert_then_initial_page (s : FeedState) (p : Obj) (data : List Obj)
    (error : JsVal) (herr : error.truthy = false)
    (hsorted : SortedByCreatedAtDesc data) (hdist : DistinctIds data)
    (hmem : ∃ q ∈ data, Obj.hasId (Obj.id p) q = true) :
    (useFeed.fetchPostsResume true (.response (some data) error)
        (useFeed.onInsert p (useFeed.fetchPostsBegin true s))).posts = data ∧
      SortedByCreatedAtDesc
        (useFeed.fetchPostsResume true (.response (some data) error)
          (useFeed.onInsert p (useFeed.fetchPostsBegin true s))).posts ∧
      idCount (Obj.id p)
        (useFeed.fetchPostsResume true (.response (some data) error)
          (useFeed.onInsert p (useFeed.fetchPostsBegin true s))).posts = 1 := by
  have hposts : (useFeed.fetchPostsResume true (.response (some data) error)
      (useFeed.onInsert p (useFeed.fetchPostsBegin true s))).posts = data := by
    simp [useFeed.fetchPostsResume, herr]
  rw [hposts]
  exact ⟨rfl, hsorted, idCount_eq_one_of_distinct _ _ hdist hmem⟩

/-- C16 at a concrete input: the INSERT of a newer version of post 1 on the
mounting hook, then the initial page `[storedPost, olderPost]`. -/
theorem c16_insert_then_initial_page_witness :
    (useFeed.fetchPostsResume true (.response (some [storedPost, olderPost]) .null)
        (useFeed.onInsert insertedPost
          (useFeed.fetchPostsBegin true useFeed.initial))).posts
      = [storedPost, olderPost] ∧
    SortedByCreatedAtDesc
      (useFeed.fetchPostsResume true (.response (some [storedPost, olderPost]) .null)
        (useFeed.onInsert insertedPost
          (useFeed.fetchPostsBegin true useFeed.initial))).posts ∧
    idCount (Obj.id insertedPost)
      (useFeed.fetchPostsResume true (.response (some [storedPost, olderPost]) .null)
        (useFeed.onInsert insertedPost
          (useFeed.fetchPostsBegin true useFeed.initial))).posts = 1 :=
  c16_insert_then_initial_page useFeed.initial insertedPost [storedPost, olderPost] .null
    (by decide) (by decide) (by decide) ⟨storedPost, by simp, by decide⟩

/-! ## C17: the realtime INSERT handler of `useFeed` -/

/-- C17: for every posts list and every INSERT payload the handler yields the
new row followed by the previous list: the row is at index 0, every previous
entry follows unchanged at the next index, and the other state cells are as
before. -/
theorem c17_insert_is_prepended (s : FeedState) (r : Obj) :
    (useFeed.onInsert r s).posts = r :: s.posts ∧
      (useFeed.onInsert r s).posts[0]? = some r ∧
      (∀ i : Nat, (useFeed.onInsert r s).posts[i + 1]? = s.posts[i]?) ∧
      (useFeed.onInsert r s).posts.length = s.posts.length + 1 ∧
      (useFeed.onInsert r s).page = s.page ∧
      (useFeed.onInsert r s).hasMore = s.hasMore ∧
      (useFeed.onInsert r s).loading = s.loading ∧
      (useFeed.onInsert r s).refreshing = s.refreshing :=
  ⟨rfl, by simp [useFeed.onInsert], fun i => by simp [useFeed.onInsert], rfl, rfl, rfl,
    rfl, rfl⟩

/-! ## C18: release of the screen subscriptions -/

/-- C18 on the code: the effect of `useFeed` releases its channel on unmount.
The effect of `ChatDetailScreen` does not: `setupRealtimeSubscription` builds
the cleanup, the effect callback drops it, and after mount and unmount the
channel of the conversation is still subscribed. -/
theorem c18_chat_channel_survives_unmount :
    mountThenUnmount useFeed.subscriptionEffect [] = [] ∧
      mountThenUnmount (ChatDetailScreen.setupRealtimeSubscription "messages-u1-u2") [] = [] ∧
      mountThenUnmount (ChatDetailScreen.mountEffect (.str "u2") "messages-u1-u2") []
        = ["messages-u1-u2"] := by
  decide

/-! ## C19: the persisted snapshot -/

/-- C19: the persisted snapshot has exactly the keys `user`, `profile`,
`theme` and `joinedCommunities`, holding those fields of the state; two states
that agree on the four fields have the same snapshot, whatever their session,
feed, notifications, conversations and messages are. -/
theorem c19_partialize_restricted (s t : Store)
    (huser : s.user = t.user) (hprofile : s.profile = t.profile)
    (htheme : s.theme = t.theme)
    (hjoined : s.joinedCommunities = t.joinedCommunities) :
    useStore.partialize s = useStore.partialize t ∧
      (useStore.partialize s).map Prod.fst
        = ["user", "profile", "theme", "joinedCommunities"] ∧
      Obj.get (useStore.partialize s) "user" = s.user ∧
      Obj.get (useStore.partialize s) "profile" = s.profile ∧
      Obj.get (useStore.partialize s) "theme" = .str s.theme ∧
      Obj.get (useStore.partialize s) "joinedCommunities"
        = .arr (s.joinedCommunities.map JsVal.obj) ∧
      Obj.get (useStore.partialize s) "session" = .undefined ∧
      Obj.get (useStore.partialize s) "feed" = .undefined ∧
      Obj.get (useStore.partialize s) "notifications" = .undefined ∧
      Obj.get (useStore.partialize s) "conversations" = .undefined ∧
      Obj.get (useStore.partialize s) "messages" = .undefined := by
  refine ⟨?_, rfl, ?_, ?_, ?_, ?_, ?_, ?_, ?_, ?_, ?_⟩
  · simp [useStore.partialize, huser, hprofile, htheme, hjoined]
  all_goals simp [useStore.partialize, get_cons, get_nil]

/-- C19 at a concrete input: the initial store and the same store after a
session, a feed and a message were written have the same snapshot. -/
theorem c19_partialize_restricted_witness :
    useStore.partialize useStore.initial
      = useStore.partialize
          (useStore.addMessage sampleMessage
            (useStore.addToFeed [samplePost]
              { useStore.initial with session := .obj [("access_token", .str "t")] })) :=
  (c19_partialize_restricted useStore.initial
    (useStore.addMessage sampleMessage
      (useStore.addToFeed [samplePost]
        { useStore.initial with session := .obj [("access_token", .str "t")] }))
    rfl rfl rfl rfl).1

/-! ## C20: what the actions of `useFeed` hand to their caller on failure -/

/-- C20, as stated, fails: a failing and a succeeding `fetchPosts` both
resolve to `undefined`, and so do a failing and a succeeding `likePost`, so the
caller cannot tell them apart by the result; and `addComment` throws the
error of a failed insert. -/
theorem c20_failure_result_counterexample :
    (QueryResult.response none sampleError).failed = true ∧
      useFeed.fetchPostsReturn false (.response none sampleError)
        = useFeed.fetchPostsReturn false (.response (some [samplePost]) .null) ∧
      (useFeed.likePost (.num 5) failingLike useFeed.initial).1
        = (useFeed.likePost (.num 5) succeedingLike useFeed.initial).1 ∧
      (useFeed.addComment (.num 5) (.resolved sampleUser) (.response .null sampleError)
          useFeed.initial).1 = .error sampleError :=
  ⟨rfl, rfl, rfl, rfl⟩

/-- C20, amended: `fetchPosts` and `likePost` never throw and resolve to
`undefined` whatever the backend did, on failure as on success. `addComment`
with a signed-in user throws the error of a failed or rejected insert, and the
rejection of `getUser`, leaving `posts` alone; on success it returns the
inserted row. -/
theorem c20_failure_results (reset : Bool) (r : QueryResult) (postId user data error e : JsVal)
    (calls : useFeed.LikeCalls) (insert : useFeed.InsertResult) (s : FeedState)
    (huser : user.truthy = true) (herror : error.truthy = true) :
    useFeed.fetchPostsReturn reset r = .ok .undefined ∧
      (useFeed.likePost postId calls s).1 = .ok .undefined ∧
      useFeed.addComment postId (.resolved user) (.response data error) s
        = (.error error, some s) ∧
      useFeed.addComment postId (.resolved user) (.rejected e) s = (.error e, some s) ∧
      useFeed.addComment postId (.rejected e) insert s = (.error e, some s) ∧
      ∀ ok : JsVal, ok.truthy = false →
        (useFeed.addComment postId (.resolved user) (.response data ok) s).1 = .ok data := by
  refine ⟨?_, ?_, ?_, ?_, rfl, ?_⟩
  · cases r <;> rfl
  · obtain ⟨getUser, existingLike, mutation⟩ := calls
    cases getUser with
    | rejected _ => rfl
    | resolved u =>
      cases hu : u.truthy
      · simp [useFeed.likePost, hu]
      · cases existingLike with
        | rejected _ => simp [useFeed.likePost, hu]
        | resolved x =>
          cases mutation with
          | rejected _ => simp [useFeed.likePost, hu]
          | resolved _ => cases hx : x.truthy <;> simp [useFeed.likePost, hu, hx]
  · simp [useFeed.addComment, huser, herror]
  · simp [useFeed.addComment, huser]
  · intro ok hok
    simp [useFeed.addComment, huser, hok]

/-- C20, amended, at a concrete input: a signed-in user whose comment insert
fails with `sampleError`. -/
theorem c20_failure_results_witness :
    useFeed.fetchPostsReturn false (.response none sampleError) = .ok .undefined ∧
      (useFeed.likePost (.num 5) failingLike loadedFeed).1 = .ok .undefined ∧
      useFeed.addComment (.num 5) (.resolved sampleUser) (.response .null sampleError)
          loadedFeed = (.error sampleError, some loadedFeed) :=
  have h := c20_failure_results false (.response none sampleError) (.num 5) sampleUser
    .null sampleError sampleError failingLike (.rejected sampleError) loadedFeed
    (by decide) (by decide)
  ⟨h.1, h.2.1, h.2.2.1⟩

/-! ## C21: which actions remove entries from the feed -/

/-- C21, as stated, fails for `updatePostInFeed`: a patch that carries an `id`
re-labels the entry, so the id 1 that was present is gone after
`updatePostInFeed(1, { id: 2 })`. -/
theorem c21_update_relabels_counterexample :
    idCount (.num 1) (useStore.setFeed [samplePost] useStore.initial).feed = 1 ∧
      idCount (.num 1)
        (useStore.updatePostInFeed (.num 1) [("id", .num 2)]
          (useStore.setFeed [samplePost] useStore.initial)).feed = 0 ∧
      idCount (.num 2)
        (useStore.updatePostInFeed (.num 1) [("id", .num 2)]
          (useStore.setFeed [samplePost] useStore.initial)).feed = 1 := by
  decide

/-- C21, amended: `addToFeed` and `appendToFeed` keep every entry that was
present; `updatePostInFeed` keeps the id at every position unless an entry has
the id `postId` and the patch carries an `id` property with a value other
than `postId`; `removeFromFeed(postId)` keeps exactly the entries whose id is
not `postId`, in their original order, leaves no entry with that id, and is
idempotent. -/
theorem c21_feed_entries_kept (s : Store) (posts : List Obj) (postId : JsVal)
    (updates : Obj)
    (hsameid : (∃ p ∈ s.feed, Obj.hasId postId p = true) →
      ∀ kv ∈ updates, kv.1 = "id" → JsVal.strictEq kv.2 postId = true) :
    (∀ p ∈ s.feed, p ∈ (useStore.addToFeed posts s).feed) ∧
      (∀ p ∈ s.feed, p ∈ (useStore.appendToFeed posts s).feed) ∧
      (useStore.updatePostInFeed postId updates s).feed.map Obj.id
        = s.feed.map Obj.id ∧
      (useStore.removeFromFeed postId s).feed
        = s.feed.filter (fun p => !Obj.hasId postId p) ∧
      (∀ p, p ∈ (useStore.removeFromFeed postId s).feed ↔
        p ∈ s.feed ∧ Obj.hasId postId p = false) ∧
      List.Sublist (useStore.removeFromFeed postId s).feed s.feed ∧
      idCount postId (useStore.removeFromFeed postId s).feed = 0 ∧
      useStore.removeFromFeed postId (useStore.removeFromFeed postId s)
        = useStore.removeFromFeed postId s := by
  have hfilter : (useStore.removeFromFeed postId s).feed
      = s.feed.filter (fun p => !Obj.hasId postId p) := rfl
  refine ⟨?_, ?_, ?_, hfilter, ?_, ?_, ?_, ?_⟩
  · intro p hp
    exact List.mem_append_right _ hp
  · intro p hp
    exact List.mem_append_left _ hp
  · show (s.feed.map _).map Obj.id = _
    rw [List.map_map]
    apply List.map_congr_left
    intro p hp
    cases h : JsVal.strictEq (Obj.id p) postId
    · simp [h]
    · simp only [Function.comp, h, if_true]
      rcases get_spread_cases p updates "id" with hget | ⟨kv, hkv, hk, hget⟩
      · exact hget
      · show Obj.get (Obj.spread p updates) "id" = Obj.id p
        rw [hget, eq_of_strictEq (hsameid ⟨p, hp, h⟩ kv hkv hk), eq_of_strictEq h]
  · intro p
    rw [hfilter, List.mem_filter]
    simp
  · rw [hfilter]
    exact List.filter_sublist _
  · rw [hfilter]
    unfold idCount
    rw [List.countP_eq_zero]
    intro p hp
    have := (List.mem_filter.mp hp).2
    simpa using this
  · have hfeed : (useStore.removeFromFeed postId (useStore.removeFromFeed postId s)).feed
        = (useStore.removeFromFeed postId s).feed := by
      show List.filter _ (List.filter _ s.feed) = List.filter _ s.feed
      rw [List.filter_filter]
      simp
    have hstep : useStore.removeFromFeed postId (useStore.removeFromFeed postId s)
        = { useStore.removeFromFeed postId s with
            feed := (useStore.removeFromFeed postId
              (useStore.removeFromFeed postId s)).feed } := rfl
    rw [hstep, hfeed]

/-- C21, amended, at a concrete input: the feed `[samplePost, otherPost]`, the
patch of a realtime row of post 1, which carries the id 1 and a like count,
and the removal of post 1. -/
theorem c21_feed_entries_kept_witness :
    (useStore.updatePostInFeed (.num 1) [("id", .num 1), ("likes_count", .num 4)]
        (useStore.setFeed [samplePost, otherPost] useStore.initial)).feed.map Obj.id
      = (useStore.setFeed [samplePost, otherPost] useStore.initial).feed.map Obj.id ∧
    (useStore.removeFromFeed (.num 1)
        (useStore.setFeed [samplePost, otherPost] useStore.initial)).feed = [otherPost] :=
  have h := c21_feed_entries_kept (useStore.setFeed [samplePost, otherPost] useStore.initial)
    [] (.num 1) [("id", .num 1), ("likes_count", .num 4)] (by
      intro _ kv hkv hk
      simp only [List.mem_cons, List.mem_singleton, List.not_mem_nil, or_false] at hkv
      rcases hkv with rfl | rfl
      · rfl
      · exact absurd hk (by decide))
  ⟨h.2.2.1, rfl⟩

/-! ## C22: `ApiService.handleError` -/

/-- C22, as stated, fails in the "only if": an error whose own code is
`AUTH_REQUIRED` and whose message is another text gets the code
`AUTH_REQUIRED` (here even with the sign-in text) although its message is not
`User not authenticated`. -/
theorem c22_auth_code_counterexample :
    ApiService.handleError relabelledError
        = some [("success", .bool false),
            ("error", .str "Please sign in to continue"),
            ("code", .str "AUTH_REQUIRED")] ∧
      (relabelledError.prop "message").map
          (fun m => JsVal.strictEq m (.str "User not authenticated")) = some false :=
  ⟨rfl, by decide⟩

/-- C22, amended: for every error that is not `null` or `undefined`,
`handleError` returns a result with `success` false. When the message is
exactly `User not authenticated` the code is `AUTH_REQUIRED` and the text is
`Please sign in to continue`; otherwise the code is the own code of the
error, or `UNKNOWN_ERROR` when that is falsy, and the text is the message, or
`An unexpected error occurred` when that is falsy; in that case the code is
`AUTH_REQUIRED` only when the own code of the error is. -/
theorem c22_handleError_classification (error : ErrorValue) (message code : JsVal)
    (hm : error.prop "message" = some message) (hc : error.prop "code" = some code) :
    ∃ result : Obj, ApiService.handleError error = some result ∧
      Obj.get result "success" = .bool false ∧
      (JsVal.strictEq message (.str "User not authenticated") = true →
        Obj.get result "code" = .str "AUTH_REQUIRED" ∧
        Obj.get result "error" = .str "Please sign in to continue") ∧
      (JsVal.strictEq message (.str "User not authenticated") = false →
        Obj.get result "code" = code.orElse (.str "UNKNOWN_ERROR") ∧
        Obj.get result "error" = message.orElse (.str "An unexpected error occurred") ∧
        (JsVal.strictEq code (.str "AUTH_REQUIRED") = false →
          JsVal.strictEq (Obj.get result "code") (.str "AUTH_REQUIRED") = false)) := by
  cases hauth : JsVal.strictEq message (.str "User not authenticated")
  · refine ⟨_, by simp [ApiService.handleError, hm, hc, hauth]; rfl, ?_, ?_, ?_⟩
    · simp [get_cons]
    · intro h; cases h
    · intro _
      refine ⟨by simp [get_cons], by simp [get_cons], ?_⟩
      intro hcode
      have hget : Obj.get [("success", JsVal.bool false),
          ("error", message.orElse (.str "An unexpected error occurred")),
          ("code", code.orElse (.str "UNKNOWN_ERROR"))] "code"
          = code.orElse (.str "UNKNOWN_ERROR") := by simp [get_cons]
      rw [hget]
      cases ht : code.truthy
      · simp [JsVal.orElse, ht, JsVal.strictEq]
      · simp [JsVal.orElse, ht, hcode]
  · refine ⟨_, by simp [ApiService.handleError, hm, hc, hauth]; rfl, ?_, ?_, ?_⟩
    · simp [get_cons]
    · intro _
      exact ⟨by simp [get_cons], by simp [get_cons]⟩
    · intro h; cases h

/-- C22, amended, at a concrete input: the error `new Error('User not
authenticated')`. -/
theorem c22_handleError_classification_witness :
    ∃ result : Obj,
      ApiService.handleError (newError "User not authenticated" "at api.js") = some result ∧
      Obj.get result "success" = .bool false ∧
      Obj.get result "code" = .str "AUTH_REQUIRED" ∧
      Obj.get result "error" = .str "Please sign in to continue" :=
  (c22_handleError_classification (newError "User not authenticated" "at api.js")
    (.str "User not authenticated") .undefined rfl rfl).elim
    (fun result h => ⟨result, h.1, h.2.1, (h.2.2.1 (by decide)).1, (h.2.2.1 (by decide)).2⟩)

/-! ## C23: `ErrorHandler.handleApiError` -/

theorem log_newError (dev : Bool) (now stack text : String) (context : JsVal)
    (h : ErrorHandler) :
    (ErrorHandler.log dev now (newError text stack) context h).1.map
          (fun shown => Obj.get shown "message")
        = some (ErrorHandler.shownMessage dev text) ∧
      (dev = false →
        (ErrorHandler.log dev now (newError text stack) context h).1
          = some [("message", .str "An unexpected error occurred"),
              ("type", .str "UnknownError")]) ∧
      (0 < h.maxErrors →
        (ErrorHandler.log dev now (newError text stack) context h).2.errors.getLast?.map
            (fun entry => (Obj.get entry "error").optProp "message")
          = some (.str text)) := by
  refine ⟨?_, ?_, ?_⟩
  · cases dev <;>
      simp [ErrorHandler.log, ErrorHandler.sanitizeError, newError,
        ErrorHandler.shownMessage, get_cons]
  · intro hdev
    subst hdev
    rfl
  · intro hmax
    have hentry : (Obj.get (ErrorHandler.errorEntry now (newError text stack) context)
        "error").optProp "message" = .str text := by
      simp [ErrorHandler.errorEntry, newError, JsVal.optProp, get_cons]
    have hlast : (if (h.errors ++ [ErrorHandler.errorEntry now (newError text stack)
          context]).length > h.maxErrors
        then (h.errors ++ [ErrorHandler.errorEntry now (newError text stack) context]).tail
        else h.errors ++ [ErrorHandler.errorEntry now (newError text stack) context]).getLast?
        = some (ErrorHandler.errorEntry now (newError text stack) context) := by
      split_ifs with hlen
      · cases herr : h.errors with
        | nil =>
          rw [herr] at hlen
          simp at hlen
          omega
        | cons x xs => simp
      · simp
    show Option.map _ (List.getLast? _) = _
    simp only [ErrorHandler.log] at hlast ⊢
    rw [hlast]
    simp [hentry]

/-- C23, as stated, fails: in a production build the value returned for a
unique violation (code `23505`) carries the fixed message, not `This item
already exists`; and in a development build an error without code whose
message contains both `Network request failed` and `JWT` gets the network
message, not the session message. -/
theorem c23_classification_counterexample :
    (ErrorHandler.handleApiError false "2024-01-01T00:00:00.000Z" "at handleApiError"
        duplicateError "insert" ErrorHandler.fresh).map
        (fun r => r.1.map (fun shown => Obj.get shown "message"))
      = some (some (.str "An unexpected error occurred")) ∧
    (ErrorHandler.handleApiError true "2024-01-01T00:00:00.000Z" "at handleApiError"
        networkJwtError "fetch" ErrorHandler.fresh).map
        (fun r => r.1.map (fun shown => Obj.get shown "message"))
      = some (some (.str "Network error. Please check your connection")) ∧
    includesText (.str "Network request failed while refreshing JWT") "JWT" = some true :=
  ⟨rfl, rfl, by decide⟩

/-- C23, amended: for an error that is not `null` or `undefined`, let `text` be
`This item already exists` for code `23505`, `You do not have permission to
perform this action` for `42501`, `Item not found` for `PGRST116`, and, for an
error with a falsy code, `Network error. Please check your connection` when
the message contains `Network request failed`, and `Session expired. Please
sign in again` when it contains `JWT` and not `Network request failed`. Then
`handleApiError` returns a value whose message is `text` in a development
build and the fixed `An unexpected error occurred` in a production build,
where the value is the fixed object and nothing else; and the entry the call
appends to the error log (of a handler that keeps at least one entry) carries
`text` as `error.message`, in either build. -/
theorem c23_handleApiError_messages (dev : Bool) (now stack operation text : String)
    (error : ErrorValue) (message code : JsVal) (h : ErrorHandler)
    (hc : error.prop "code" = some code) (hm : error.prop "message" = some message)
    (hcase : (code = .str "23505" ∧ text = "This item already exists") ∨
      (code = .str "42501" ∧ text = "You do not have permission to perform this action") ∨
      (code = .str "PGRST116" ∧ text = "Item not found") ∨
      (code.truthy = false ∧ includesText message "Network request failed" = some true ∧
        text = "Network error. Please check your connection") ∨
      (code.truthy = false ∧ includesText message "Network request failed" = some false ∧
        includesText message "JWT" = some true ∧
        text = "Session expired. Please sign in again")) :
    ∃ r : Option Obj × ErrorHandler,
      ErrorHandler.handleApiError dev now stack error operation h = some r ∧
      r.1.map (fun shown => Obj.get shown "message")
        = some (ErrorHandler.shownMessage dev text) ∧
      (dev = false →
        r.1 = some [("message", .str "An unexpected error occurred"),
          ("type", .str "UnknownError")]) ∧
      (0 < h.maxErrors →
        r.2.errors.getLast?.map (fun entry => (Obj.get entry "error").optProp "message")
          = some (.str text)) := by
  refine ⟨ErrorHandler.log dev now (newError text stack)
    (.obj [("operation", .str operation)]) h, ?_, log_newError dev now stack text _ h⟩
  rcases hcase with ⟨hcode, ht⟩ | ⟨hcode, ht⟩ | ⟨hcode, ht⟩ | ⟨hcode, hnet, ht⟩ |
    ⟨hcode, hnet, hjwt, ht⟩
  · subst hcode ht
    simp [ErrorHandler.handleApiError, hc, hm, JsVal.truthy, JsVal.strictEq]
  · subst hcode ht
    simp [ErrorHandler.handleApiError, hc, hm, JsVal.truthy, JsVal.strictEq]
  · subst hcode ht
    simp [ErrorHandler.handleApiError, hc, hm, JsVal.truthy, JsVal.strictEq]
  · subst ht
    simp [ErrorHandler.handleApiError, hc, hm, hcode, hnet]
  · subst ht
    simp [ErrorHandler.handleApiError, hc, hm, hcode, hnet, hjwt]

/-- C23, amended, at a concrete input: the unique violation in a production
build, on a new handler: the returned message is the fixed one and the log
entry carries the classification. -/
theorem c23_handleApiError_messages_witness :
    ∃ r : Option Obj × ErrorHandler,
      ErrorHandler.handleApiError false "2024-01-01T00:00:00.000Z" "at handleApiError"
        duplicateError "insert" ErrorHandler.fresh = some r ∧
      r.1.map (fun shown => Obj.get shown "message")
        = some (.str "An unexpected error occurred") ∧
      r.2.errors.getLast?.map (fun entry => (Obj.get entry "error").optProp "message")
        = some (.str "This item already exists") :=
  (c23_handleApiError_messages false "2024-01-01T00:00:00.000Z" "at handleApiError" "insert"
    "This item already exists" duplicateError (.str "duplicate key value") (.str "23505")
    ErrorHandler.fresh rfl rfl (Or.inl ⟨rfl, rfl⟩)).elim
    (fun r hr => ⟨r, hr.1, hr.2.1, hr.2.2.2 (by decide)⟩)

/-! ## C24: `sanitizeError` in a production build -/

theorem sanitizeError_production_cases (props other : Obj) (v : JsVal) (text : String)
    (hv : jsString v = some text) :
    ErrorHandler.sanitizeError false (.errorObject props)
        = some [("message", .str "An unexpected error occurred"),
            ("type", .str "UnknownError")] ∧
      ErrorHandler.sanitizeError false (.errorObject props)
        = ErrorHandler.sanitizeError false (.errorObject other) ∧
      ErrorHandler.sanitizeError false (.plain v)
        = some [("message", .str text), ("type", .str "UnknownError")] := by
  refine ⟨rfl, rfl, ?_⟩
  simp [ErrorHandler.sanitizeError, hv]

/-- C24 (a defect of the code): in a production build `sanitizeError` hides the
message of an `Error`, as its comments promise, but returns a string that was
thrown as it is: `sanitizeError` and `log` hand `token abc rejected` to the
caller as the message, while the `Error` with the same message comes back as
the fixed object; two thrown strings are told apart by the output. -/
theorem c24_plain_value_not_sanitized :
    ErrorHandler.sanitizeError false (.plain (.str "token abc rejected"))
        = some [("message", .str "token abc rejected"), ("type", .str "UnknownError")] ∧
      (ErrorHandler.log false "2024-01-01T00:00:00.000Z" (.plain (.str "token abc rejected"))
          (.obj []) ErrorHandler.fresh).1
        = some [("message", .str "token abc rejected"), ("type", .str "UnknownError")] ∧
      ErrorHandler.sanitizeError false (newError "token abc rejected" "at signIn")
        = some [("message", .str "An unexpected error occurred"),
            ("type", .str "UnknownError")] ∧
      (ErrorHandler.sanitizeError false (.plain (.str "row 7 missing"))).map
          (fun shown => Obj.get shown "message")
        = some (.str "row 7 missing") ∧
      JsVal.strictEq (.str "token abc rejected") (.str "row 7 missing") = false :=
  ⟨rfl, rfl, rfl, rfl, by decide⟩

/-! ## C25: `validateImage` -/

/-- C25, as stated, fails at the limit: an image of exactly 10 MB
(10485760 bytes), which is not strictly less than 10 MB, is accepted. -/
theorem c25_exact_limit_counterexample :
    ImageUploadService.validateImage (.obj boundaryImage) = some (.ok true) ∧
      Obj.get boundaryImage "fileSize" = .num (10 * 1024 * 1024) ∧
      ¬ ((10485760 : Int) < 10 * 1024 * 1024) :=
  ⟨rfl, rfl, by decide⟩

/-- C25, amended: for an image object whose `fileSize` is absent or a number,
`validateImage` settles; it resolves to `true` exactly when the image has a
truthy `uri`, a `fileSize` of at most 10 MB and a `mimeType` that is falsy or
one of the four allowed types, and it rejects with an error otherwise. A value
that is not an object is rejected as an invalid image file. -/
theorem c25_validateImage_accepts_iff (fields : Obj)
    (hsize : Obj.get fields "fileSize" = .undefined ∨
      ∃ n, Obj.get fields "fileSize" = .num n) :
    (∃ r : Except String Bool,
      ImageUploadService.validateImage (.obj fields) = some r ∧
      (r = .ok true ↔ ImageUploadService.meetsLimits fields = true) ∧
      (ImageUploadService.meetsLimits fields = false → ∃ msg, r = .error msg)) ∧
    ∀ v : JsVal, (∀ fs, v ≠ .obj fs) →
      ImageUploadService.validateImage v = some (.error "Invalid image file") := by
  refine ⟨?_, fun v hv => by
    cases v <;>
      first
        | exact absurd rfl (hv _)
        | simp [ImageUploadService.validateImage, JsVal.truthy, JsVal.optProp]⟩
  have hobj : (JsVal.obj fields).truthy = true := rfl
  have hsizeOk : ∃ big : Bool,
      (if (Obj.get fields "fileSize").truthy then
          (Obj.get fields "fileSize").gtInt ImageUploadService.maxImageSize
        else some false) = some big ∧
      (match Obj.get fields "fileSize" with
        | .num n => decide (n ≤ 10 * 1024 * 1024)
        | _ => true) = !big := by
    rcases hsize with h | ⟨n, h⟩
    · exact ⟨false, by rw [h]; rfl, by rw [h]; rfl⟩
    · by_cases hn : n = 0
      · subst hn
        exact ⟨false, by rw [h]; rfl, by rw [h]; rfl⟩
      · refine ⟨decide (ImageUploadService.maxImageSize < n), ?_, ?_⟩
        · rw [h]
          simp [JsVal.truthy, hn, JsVal.gtInt]
        · rw [h]
          simp only [ImageUploadService.maxImageSize]
          by_cases hle : n ≤ 10485760
          · have hlt : ¬ (10485760 < n) := by omega
            simp [hle, hlt]
          · have hlt : 10485760 < n := by omega
            simp [hle, hlt]
  obtain ⟨big, hbig, hmatch⟩ := hsizeOk
  unfold ImageUploadService.validateImage ImageUploadService.meetsLimits
  simp only [JsVal.optProp, hobj, hbig, hmatch]
  rcases Bool.eq_false_or_eq_true (Obj.get fields "uri").truthy with huri | huri
  · rcases Bool.eq_false_or_eq_true big with hb | hb
    · subst hb
      exact ⟨.error "Image size must be less than 10MB", by simp [huri], by simp [huri],
        fun _ => ⟨_, rfl⟩⟩
    · subst hb
      rcases Bool.eq_false_or_eq_true (Obj.get fields "mimeType").truthy with h1 | h1
      · rcases Bool.eq_false_or_eq_true (ImageUploadService.allowedTypes.any
            (fun t => JsVal.strictEq (.str t) (Obj.get fields "mimeType"))) with h2 | h2
        · exact ⟨.ok true, by simp [huri, h1, h2], by simp [huri, h1, h2],
            by simp [huri, h1, h2]⟩
        · exact ⟨.error "Image must be JPEG, PNG, GIF, or WebP", by simp [huri, h1, h2],
            by simp [huri, h1, h2], fun _ => ⟨_, rfl⟩⟩
      · exact ⟨.ok true, by simp [huri, h1], by simp [huri, h1], by simp [huri, h1]⟩
  · exact ⟨.error "Invalid image file", by simp [huri], by simp [huri], fun _ => ⟨_, rfl⟩⟩

/-- C25, amended, at a concrete input: the image of exactly 10 MB. -/
theorem c25_validateImage_accepts_iff_witness :
    ∃ r : Except String Bool,
      ImageUploadService.validateImage (.obj boundaryImage) = some r ∧
      (r = .ok true ↔ ImageUploadService.meetsLimits boundaryImage = true) :=
  (c25_validateImage_accepts_iff boundaryImage (Or.inr ⟨10485760, rfl⟩)).1.elim
    (fun r h => ⟨r, h.1, h.2.1⟩)

/-! ## C26: `validateForm` of the profile editor -/

theorem set_length_ne_zero (o : Obj) (k : String) (v : JsVal) :
    ((Obj.set o k v).length == 0) = false := by
  cases o with
  | nil => rfl
  | cons kv rest =>
    obtain ⟨k₀, v₀⟩ := kv
    by_cases h : k₀ = k <;> simp [Obj.set, h]

/-- C26, as stated, fails at the limit: a username of exactly 30 characters,
which is not less than 30 characters long, passes the validation. -/
theorem c26_username_limit_counterexample :
    (EditProfileScreen.validateForm longUsernameForm).2 = true ∧
      EditProfileScreen.jsLength longUsernameForm.username = 30 ∧
      ¬ (EditProfileScreen.jsLength longUsernameForm.username < 30) := by
  decide

/-- C26, amended: `validateForm` returns true exactly when the name is
non-blank, the username is non-blank, consists of letters, digits and
underscores and has 3 to 30 characters, and the bio has at most 150
characters; the `errors` object holds, per field, the message of the first
rule the field breaks and nothing for a field that breaks none. -/
theorem c26_validateForm_rules (profile : ProfileForm) :
    (EditProfileScreen.validateForm profile).2 = EditProfileScreen.formIsValid profile ∧
      Obj.get (EditProfileScreen.validateForm profile).1 "full_name"
        = (if EditProfileScreen.isBlank profile.full_name then .str "Name is required"
          else .undefined) ∧
      Obj.get (EditProfileScreen.validateForm profile).1 "username"
        = (if EditProfileScreen.isBlank profile.username then
            .str "Username is required"
          else if !EditProfileScreen.usernamePattern profile.username then
            .str "Username can only contain letters, numbers, and underscores"
          else if EditProfileScreen.jsLength profile.username < 3 then
            .str "Username must be at least 3 characters"
          else if EditProfileScreen.jsLength profile.username > 30 then
            .str "Username must be less than 30 characters"
          else .undefined) ∧
      Obj.get (EditProfileScreen.validateForm profile).1 "bio"
        = (if EditProfileScreen.jsLength profile.bio > 150 then
            .str "Bio must be 150 characters or less"
          else .undefined) := by
  refine ⟨?_, ?_, ?_, ?_⟩
  · simp only [EditProfileScreen.validateForm, EditProfileScreen.formIsValid]
    split_ifs <;> simp [set_length_ne_zero, *] <;>
      first
        | omega
        | simp_all
  · simp only [EditProfileScreen.validateForm]
    split_ifs <;> simp [get_set, get_nil]
  · simp only [EditProfileScreen.validateForm]
    split_ifs <;> simp_all [get_set, get_nil]
  · simp only [EditProfileScreen.validateForm]
    split_ifs <;> simp [get_set, get_nil]

/-! ## C27: the unread counter -/

theorem isUnread_spread_read_at (n : Obj) (now : String) (hnow : now ≠ "") :
    useStore.isUnread
      (Obj.spread n [("read_at", (Obj.get n "read_at").orElse (.str now))]) = false := by
  have hget : Obj.get (Obj.spread n [("read_at", (Obj.get n "read_at").orElse (.str now))])
      "read_at" = (Obj.get n "read_at").orElse (.str now) :=
    get_spread_of_mem n _ (by simp) ("read_at", _) (List.mem_singleton.mpr rfl)
  unfold useStore.isUnread
  rw [hget]
  have hstr : (JsVal.str now).truthy = true := by simp [JsVal.truthy, hnow]
  cases h : (Obj.get n "read_at").truthy
  · simp [JsVal.orElse, h, hstr]
  · simp [JsVal.orElse, h]

/-- The four notification actions establish the unread invariant: each leaves
`unreadCount` equal to the number of notifications with a falsy `read_at`. -/
theorem unreadInvariant_notification_actions (s : Store) (ns : List Obj) (n : Obj)
    (notificationId : JsVal) (now : String) (hnow : now ≠ "") :
    useStore.UnreadInvariant (useStore.setNotifications ns s) ∧
      useStore.UnreadInvariant (useStore.addNotification n s) ∧
      useStore.UnreadInvariant (useStore.markNotificationAsRead notificationId now s) ∧
      useStore.UnreadInvariant (useStore.markAllNotificationsAsRead now s) := by
  refine ⟨rfl, rfl, rfl, ?_⟩
  show 0 = (List.filter useStore.isUnread (s.notifications.map _)).length
  rw [List.filter_map]
  have hnone : List.filter (useStore.isUnread ∘ fun n =>
      Obj.spread n [("read_at", (Obj.get n "read_at").orElse (.str now))]) s.notifications
      = [] := by
    rw [List.filter_eq_nil_iff]
    intro a _
    simp [Function.comp, isUnread_spread_read_at a now hnow]
  rw [hnone]
  rfl

/-- C27 on the code: the invariant holds in the initial state and after
`addNotification`, with one unread notification counted; `logout` then empties
`notifications` and leaves `unreadCount` at 1, so the invariant is broken. -/
theorem c27_logout_keeps_unreadCount :
    useStore.UnreadInvariant useStore.initial ∧
      useStore.UnreadInvariant
        (useStore.addNotification sampleNotification useStore.initial) ∧
      (useStore.addNotification sampleNotification useStore.initial).unreadCount = 1 ∧
      (useStore.logoutSet
        (useStore.addNotification sampleNotification useStore.initial)).notifications.length
        = 0 ∧
      (useStore.logoutSet
        (useStore.addNotification sampleNotification useStore.initial)).unreadCount = 1 ∧
      ¬ useStore.UnreadInvariant
        (useStore.logoutSet
          (useStore.addNotification sampleNotification useStore.initial)) := by
  decide

/-! ## C28: token refresh and the cached profile -/

/-- C28 on the code: with the cached profile `sampleProfile` in the store, the
`TOKEN_REFRESHED` and the `USER_UPDATED` branch both leave the user object in
the `profile` field; the cached profile, which has a `username`, is gone. -/
theorem c28_refresh_overwrites_profile :
    signedInStore.profile = sampleProfile ∧
      (App.onRefreshEvent .tokenRefreshed refreshedSession signedInStore.user
          signedInStore).map (fun st => st.profile) = some sampleUser ∧
      (App.onRefreshEvent .userUpdated refreshedSession signedInStore.user
          signedInStore).map (fun st => st.profile) = some sampleUser ∧
      JsVal.strictEq (sampleProfile.optProp "username") (.str "ann") = true ∧
      JsVal.strictEq (sampleUser.optProp "username") (.str "ann") = false :=
  ⟨rfl, rfl, rfl, by decide, by decide⟩

/-! ## C29: the local like arithmetic of `likePost` -/

theorem unlikeEntry_of_count (post : Obj) (c : Int)
    (h0 : 0 ≤ c) (h1 : c ≤ JsVal.maxExact)
    (h : Obj.get post "likes" = countColumn (.num c)) :
    useFeed.unlikeEntry post
      = some (Obj.spread post
          [("likes", countColumn (.num (if c = 0 then 0 else c - 1))),
            ("user_liked", .arr [])]) := by
  by_cases hc : c = 0
  · subst hc
    have hsub : JsVal.addExact 1 (-1) = some 0 := by decide
    simp [useFeed.unlikeEntry, countOr, h, countColumn, JsVal.index0, JsVal.optProp,
      JsVal.orElse, JsVal.truthy, JsVal.minus, get_cons, hsub]
  · have hsub : JsVal.addExact c (-1) = some (c - 1) := by
      have := addExact_of_range c (-1)
        (by unfold JsVal.maxExact at *; omega) (by unfold JsVal.maxExact; omega)
        (by unfold JsVal.maxExact at *; omega)
      simpa [Int.sub_eq_add_neg] using this
    simp [useFeed.unlikeEntry, countOr, h, countColumn, JsVal.index0, JsVal.optProp,
      JsVal.orElse, JsVal.truthy, JsVal.minus, get_cons, hc, hsub]

theorem updateWhere_keeps_others (postId : JsVal) (f : Obj → Option Obj) (rows out : List Obj)
    (h : updateWhere postId f rows = some out) :
    ∀ (i : Nat) (q : Obj), rows[i]? = some q → Obj.hasId postId q = false →
      out[i]? = some q := by
  induction rows generalizing out with
  | nil =>
    intro i q hi
    simp at hi
  | cons p rest ih =>
    intro i q hi hq
    cases hrest : updateWhere postId f rest with
    | none => simp [updateWhere, hrest] at h
    | some r =>
      cases hp : (if JsVal.strictEq (Obj.id p) postId then f p else some p) with
      | none => simp [updateWhere, hrest, hp] at h
      | some p₁ =>
        have hout : out = p₁ :: r := by
          simp [updateWhere, hrest, hp] at h
          exact h.symm
        subst hout
        cases i with
        | zero =>
          have hpq : p = q := by simpa using hi
          subst hpq
          have hid : JsVal.strictEq (Obj.id p) postId = false := hq
          rw [hid] at hp
          simp at hp
          simp [hp]
        | succ j =>
          have hj : rest[j]? = some q := by simpa using hi
          simpa using ih r hrest j q hj hq

theorem likePost_unlike_branch (postId user existing r : JsVal) (s : FeedState)
    (huser : user.truthy = true) (hunlike : existing.truthy = true) :
    (useFeed.likePost postId ⟨.resolved user, .resolved existing, .resolved r⟩ s).2
      = (updateWhere postId useFeed.unlikeEntry s.posts).map
          (fun ps => { s with posts := ps }) := by
  simp [useFeed.likePost, huser, hunlike]

theorem unlike_rows (postId : JsVal) (rows : List Obj)
    (hcount : ∀ q ∈ rows, Obj.hasId postId q = true →
      ∃ c : Int, 0 ≤ c ∧ c ≤ JsVal.maxExact ∧ Obj.get q "likes" = countColumn (.num c)) :
    updateWhere postId useFeed.unlikeEntry rows
      = some (rows.map (fun q =>
          if JsVal.strictEq (Obj.id q) postId then (useFeed.unlikeEntry q).getD q
          else q)) := by
  apply updateWhere_eq_map
  intro q hq hid
  obtain ⟨c, h0, h1, hc⟩ := hcount q hq hid
  rw [unlikeEntry_of_count q c h0 h1 hc]
  rfl

theorem unlike_row_at (postId : JsVal) (rows : List Obj) (i : Nat) (q : Obj) (c : Int)
    (hi : rows[i]? = some q) (hid : Obj.hasId postId q = true)
    (h0 : 0 ≤ c) (h1 : c ≤ JsVal.maxExact)
    (hc : Obj.get q "likes" = countColumn (.num c)) :
    (rows.map (fun q =>
        if JsVal.strictEq (Obj.id q) postId then (useFeed.unlikeEntry q).getD q
        else q))[i]?
      = some (Obj.spread q
          [("likes", countColumn (.num (if c = 0 then 0 else c - 1))),
            ("user_liked", .arr [])]) := by
  have hidq : JsVal.strictEq (Obj.id q) postId = true := hid
  rw [List.getElem?_map, hi]
  simp [hidq, unlikeEntry_of_count q c h0 h1 hc]

theorem other_row_at (postId : JsVal) (f : Obj → Obj) (rows : List Obj) (i : Nat) (q : Obj)
    (hi : rows[i]? = some q) (hid : Obj.hasId postId q = false) :
    (rows.map (fun q => if JsVal.strictEq (Obj.id q) postId then f q else q))[i]?
      = some q := by
  have hidq : JsVal.strictEq (Obj.id q) postId = false := hid
  rw [List.getElem?_map, hi]
  simp [hidq]

/-- C29, as stated, fails at the like count `2^53`: the like branch of
`likePost` leaves the count at `2^53` (the sum `2^53 + 1` is no double and
rounds back), and the unlike that follows yields `2^53 - 1`, not the count the
post had. -/
theorem c29_like_at_limit_counterexample :
    (useFeed.likePost (.num 5) succeedingLike
          { useFeed.initial with posts := [popularPost] }).2.map (fun liked => liked.posts)
      = some [[("id", .num 5), ("likes", countColumn (.num 9007199254740992)),
          ("user_liked", .arr [.obj [("user_id", .str "u1")]])]] ∧
    ((useFeed.likePost (.num 5) succeedingLike
          { useFeed.initial with posts := [popularPost] }).2.bind
        (fun liked => (useFeed.likePost (.num 5) succeedingUnlike liked).2)).map
        (fun restored => restored.posts)
      = some [[("id", .num 5), ("likes", countColumn (.num 9007199254740991)),
          ("user_liked", .arr [])]] ∧
    countColumn (.num 9007199254740991) ≠ countColumn (.num 9007199254740992) := by
  refine ⟨rfl, rfl, ?_⟩
  simp [countColumn]

/-- C29 (amended): on a list whose entries with id `postId` carry integer like
counts `c` with `0 ≤ c < 2^53`, with a signed-in user and every request
resolved, `likePost` succeeds in its like branch (no like found), in its
unlike branch (a like found), and in its unlike branch after the like branch;
the list keeps its length. At every position with id `postId`: the like
yields count `c + 1` and `user_liked` with the user, the unlike yields a count
that is not negative and an empty `user_liked`, and the unlike after the like
yields count `c` and an empty `user_liked`. At every position with another id
the entry is unchanged in all three lists. -/
theorem c29_like_unlike_arithmetic (postId user noLike aLike r : JsVal) (s : FeedState)
    (huser : user.truthy = true) (hlike : noLike.truthy = false)
    (hunlike : aLike.truthy = true)
    (hcount : ∀ q ∈ s.posts, Obj.hasId postId q = true →
      ∃ c : Int, 0 ≤ c ∧ c < JsVal.maxExact ∧ Obj.get q "likes" = countColumn (.num c)) :
    ∃ liked unliked restored : FeedState,
      (useFeed.likePost postId ⟨.resolved user, .resolved noLike, .resolved r⟩ s).2
          = some liked ∧
      (useFeed.likePost postId ⟨.resolved user, .resolved aLike, .resolved r⟩ s).2
          = some unliked ∧
      (useFeed.likePost postId ⟨.resolved user, .resolved aLike, .resolved r⟩ liked).2
          = some restored ∧
      liked.posts.length = s.posts.length ∧ unliked.posts.length = s.posts.length ∧
      restored.posts.length = s.posts.length ∧
      (∀ (i : Nat) (q : Obj) (c : Int), s.posts[i]? = some q →
        Obj.hasId postId q = true → Obj.get q "likes" = countColumn (.num c) →
        (∃ q₁ : Obj, liked.posts[i]? = some q₁ ∧
          Obj.get q₁ "likes" = countColumn (.num (c + 1)) ∧
          Obj.get q₁ "user_liked" = .arr [.obj [("user_id", user.optProp "id")]]) ∧
        (∃ (q₂ : Obj) (d : Int), unliked.posts[i]? = some q₂ ∧
          Obj.get q₂ "likes" = countColumn (.num d) ∧ 0 ≤ d ∧
          Obj.get q₂ "user_liked" = .arr []) ∧
        (∃ q₃ : Obj, restored.posts[i]? = some q₃ ∧
          Obj.get q₃ "likes" = countColumn (.num c) ∧
          Obj.get q₃ "user_liked" = .arr [])) ∧
      (∀ (i : Nat) (q : Obj), s.posts[i]? = some q → Obj.hasId postId q = false →
        liked.posts[i]? = some q ∧ unliked.posts[i]? = some q ∧
          restored.posts[i]? = some q) := by
  have hcountU : ∀ q ∈ s.posts, Obj.hasId postId q = true →
      ∃ c : Int, 0 ≤ c ∧ c ≤ JsVal.maxExact ∧ Obj.get q "likes" = countColumn (.num c) := by
    intro q hq hid
    obtain ⟨c, h0, h1, hc⟩ := hcount q hq hid
    exact ⟨c, h0, le_of_lt h1, hc⟩
  have hcountL : ∀ q₁ ∈ s.posts.map (fun q =>
        if JsVal.strictEq (Obj.id q) postId
        then (useFeed.likeEntry (user.optProp "id") q).getD q else q),
      Obj.hasId postId q₁ = true →
      ∃ c : Int, 0 ≤ c ∧ c ≤ JsVal.maxExact ∧
        Obj.get q₁ "likes" = countColumn (.num c) := by
    intro q₁ hq₁ hid₁
    obtain ⟨q, hq, hfq⟩ := List.mem_map.mp hq₁
    cases hid : JsVal.strictEq (Obj.id q) postId with
    | false =>
      rw [hid] at hfq
      simp only [Bool.false_eq_true, if_false] at hfq
      subst hfq
      have : JsVal.strictEq (Obj.id q) postId = true := hid₁
      rw [hid] at this
      cases this
    | true =>
      obtain ⟨c, h0, h1, hc⟩ := hcount q hq hid
      rw [hid, likeEntry_of_count _ q c h0 h1 hc] at hfq
      simp only [if_true, Option.getD_some] at hfq
      subst hfq
      exact ⟨c + 1, by omega, by omega, (spread_like_keys q _ _).1⟩
  refine ⟨{ s with posts := s.posts.map (fun q =>
        if JsVal.strictEq (Obj.id q) postId
        then (useFeed.likeEntry (user.optProp "id") q).getD q else q) },
    { s with posts := s.posts.map (fun q =>
        if JsVal.strictEq (Obj.id q) postId then (useFeed.unlikeEntry q).getD q else q) },
    { s with posts := (s.posts.map (fun q =>
        if JsVal.strictEq (Obj.id q) postId
        then (useFeed.likeEntry (user.optProp "id") q).getD q else q)).map (fun q =>
        if JsVal.strictEq (Obj.id q) postId then (useFeed.unlikeEntry q).getD q else q) },
    ?_, ?_, ?_, ?_, ?_, ?_, ?_, ?_⟩
  · rw [likePost_like_branch postId user noLike r s huser hlike,
      like_rows postId _ s.posts hcount]
    rfl
  · rw [likePost_unlike_branch postId user aLike r s huser hunlike,
      unlike_rows postId s.posts hcountU]
    rfl
  · rw [likePost_unlike_branch postId user aLike r _ huser hunlike]
    show Option.map _ (updateWhere postId useFeed.unlikeEntry (List.map _ s.posts)) = _
    rw [unlike_rows postId _ hcountL]
    rfl
  · show (List.map _ _).length = _
    rw [List.length_map]
  · show (List.map _ _).length = _
    rw [List.length_map]
  · show (List.map _ (List.map _ _)).length = _
    rw [List.length_map, List.length_map]
  · intro i q c hi hid hc
    obtain ⟨c₁, h0, h1, hc₁⟩ := hcount q (List.getElem?_mem hi) hid
    have hcc : c₁ = c := count_of_column q c c₁ hc hc₁
    subst hcc
    have hkeysL := spread_like_keys q (countColumn (.num (c₁ + 1)))
      (.arr [.obj [("user_id", user.optProp "id")]])
    have hrowL := like_row_at postId (user.optProp "id") s.posts i q c₁ hi hid h0 h1 hc
    have hidL : Obj.hasId postId (Obj.spread q
        [("likes", countColumn (.num (c₁ + 1))),
          ("user_liked", .arr [.obj [("user_id", user.optProp "id")]])]) = true := by
      show JsVal.strictEq (Obj.id _) postId = true
      rw [hkeysL.2.2]
      exact hid
    have hrowR := unlike_row_at postId _ i _ (c₁ + 1) hrowL hidL (by omega) (by omega)
      hkeysL.1
    have hne : c₁ + 1 ≠ 0 := by omega
    refine ⟨⟨_, hrowL, hkeysL.1, hkeysL.2.1⟩,
      ⟨_, (if c₁ = 0 then 0 else c₁ - 1),
        unlike_row_at postId s.posts i q c₁ hi hid h0 (le_of_lt h1) hc,
        (spread_like_keys q _ _).1, ?_, (spread_like_keys q _ _).2.1⟩,
      ⟨_, hrowR, ?_, (spread_like_keys _ _ _).2.1⟩⟩
    · split_ifs <;> omega
    · rw [(spread_like_keys _ _ _).1]
      simp [hne]
  · intro i q hi hid
    have hL := other_row_at postId
      (fun q => (useFeed.likeEntry (user.optProp "id") q).getD q) s.posts i q hi hid
    exact ⟨hL, other_row_at postId (fun q => (useFeed.unlikeEntry q).getD q) s.posts i q hi hid,
      other_row_at postId (fun q => (useFeed.unlikeEntry q).getD q) _ i q hL hid⟩

/-- C29 (amended) at a concrete input: the list of post 5 with like count 3 and
another post; post 5 is liked by `u1`, unliked, and unliked after the like. -/
theorem c29_like_unlike_arithmetic_witness :
    ∃ liked unliked restored : FeedState,
      (useFeed.likePost (.num 5) ⟨.resolved sampleUser, .resolved .null,
          .resolved (.obj [("error", .null)])⟩
          { useFeed.initial with posts := [likedPost, samplePost] }).2 = some liked ∧
      (useFeed.likePost (.num 5) ⟨.resolved sampleUser, .resolved (.obj [("id", .num 77)]),
          .resolved (.obj [("error", .null)])⟩
          { useFeed.initial with posts := [likedPost, samplePost] }).2 = some unliked ∧
      (useFeed.likePost (.num 5) ⟨.resolved sampleUser, .resolved (.obj [("id", .num 77)]),
          .resolved (.obj [("error", .null)])⟩ liked).2 = some restored ∧
      liked.posts.length = 2 ∧ unliked.posts.length = 2 ∧ restored.posts.length = 2 :=
  have h := c29_like_unlike_arithmetic (.num 5) sampleUser .null (.obj [("id", .num 77)])
    (.obj [("error", .null)]) { useFeed.initial with posts := [likedPost, samplePost] }
    rfl rfl rfl
    (fun q hq hid => ⟨3, by decide, by decide, by
      have hq₂ : q = likedPost ∨ q = samplePost := by simpa [useFeed.initial] using hq
      rcases hq₂ with rfl | rfl
      · rfl
      · exact absurd hid (by decide)⟩)
  h.elim (fun liked h₁ => h₁.elim (fun unliked h₂ => h₂.elim (fun restored h₃ =>
    ⟨liked, unliked, restored, h₃.1, h₃.2.1, h₃.2.2.1, h₃.2.2.2.1, h₃.2.2.2.2.1,
      h₃.2.2.2.2.2.1⟩)))

/-! ## C30: the bounded error log -/

theorem logAll_snoc (dev : Bool) (calls : List (String × ErrorValue × JsVal))
    (c : String × ErrorValue × JsVal) (h : ErrorHandler) :
    ErrorHandler.logAll dev (calls ++ [c]) h
      = (ErrorHandler.log dev c.1 c.2.1 c.2.2 (ErrorHandler.logAll dev calls h)).2 := by
  simp [ErrorHandler.logAll, List.foldl_append]

theorem logAll_fresh_errors (dev : Bool) (calls : List (String × ErrorValue × JsVal)) :
    (ErrorHandler.logAll dev calls ErrorHandler.fresh).maxErrors = 100 ∧
      (ErrorHandler.logAll dev calls ErrorHandler.fresh).errors
        = (calls.map (fun c => ErrorHandler.errorEntry c.1 c.2.1 c.2.2)).drop
            (calls.length - 100) := by
  induction calls using List.reverseRecOn with
  | nil => exact ⟨rfl, rfl⟩
  | append_singleton cs c ih =>
    obtain ⟨hmax, herrors⟩ := ih
    rw [logAll_snoc]
    refine ⟨hmax, ?_⟩
    simp only [ErrorHandler.log, hmax, herrors]
    by_cases hlen : cs.length < 100
    · have h0 : cs.length - 100 = 0 := by omega
      have h1 : (cs ++ [c]).length - 100 = 0 := by
        simp only [List.length_append, List.length_singleton]
        omega
      rw [h0, h1]
      simp only [List.drop_zero, List.map_append, List.map_cons, List.map_nil]
      have hle : ¬ ((List.map (fun c => ErrorHandler.errorEntry c.1 c.2.1 c.2.2) cs
          ++ [ErrorHandler.errorEntry c.1 c.2.1 c.2.2]).length > 100) := by
        simp only [List.length_append, List.length_map, List.length_singleton]
        omega
      rw [if_neg hle]
    · have hk : (cs ++ [c]).length - 100 = (cs.length - 100) + 1 := by
        simp only [List.length_append, List.length_singleton]
        omega
      have hdrop : (List.drop (cs.length - 100)
          (List.map (fun c => ErrorHandler.errorEntry c.1 c.2.1 c.2.2) cs)
          ++ [ErrorHandler.errorEntry c.1 c.2.1 c.2.2])
          = List.drop (cs.length - 100)
              (List.map (fun c => ErrorHandler.errorEntry c.1 c.2.1 c.2.2) (cs ++ [c])) := by
        rw [List.map_append, List.drop_append_of_le_length]
        · rfl
        · simp only [List.length_map]
          omega
      have hgt : (List.drop (cs.length - 100)
          (List.map (fun c => ErrorHandler.errorEntry c.1 c.2.1 c.2.2) cs)
          ++ [ErrorHandler.errorEntry c.1 c.2.1 c.2.2]).length > 100 := by
        simp only [List.length_append, List.length_drop, List.length_map,
          List.length_singleton]
        omega
      rw [if_pos hgt, hdrop, hk, List.tail_drop]

theorem getErrorsRef_copy (heap : ErrorHandler.ArrayHeap) (buffer : Nat)
    (hbuffer : buffer < heap.cells.length) :
    (ErrorHandler.getErrorsRef buffer heap).1 ≠ buffer ∧
      (ErrorHandler.getErrorsRef buffer heap).2.read (ErrorHandler.getErrorsRef buffer heap).1
        = heap.read buffer ∧
      ∀ elements : List Obj,
        ((ErrorHandler.getErrorsRef buffer heap).2.write
            (ErrorHandler.getErrorsRef buffer heap).1 elements).read buffer
          = heap.read buffer := by
  refine ⟨?_, ?_, ?_⟩
  · show heap.cells.length ≠ buffer
    omega
  · show (heap.cells ++ [heap.read buffer]).getD heap.cells.length [] = _
    simp [List.getD_eq_getElem?_getD]
  · intro elements
    show ((heap.cells ++ [heap.read buffer]).set heap.cells.length elements).getD buffer []
      = heap.cells.getD buffer []
    have hne : heap.cells.length ≠ buffer := by omega
    simp only [List.getD_eq_getElem?_getD]
    rw [List.getElem?_set_ne hne, List.getElem?_append_left hbuffer]

/-- C30: after any run of `log` calls on a new handler the buffer holds at
most 100 entries: it is the list of logged entries, in logging order, without
its first `n - 100` elements, so exactly the last 100 once more than 100 were
logged. `getErrors` returns those entries; `clear` empties the buffer. With
the buffer as an array at a reference, `getErrors` returns another reference,
whose array holds the entries of the buffer, and no mutation of the array
returned changes the buffer. -/
theorem c30_error_log_bounded (dev : Bool) (calls : List (String × ErrorValue × JsVal)) :
    (ErrorHandler.logAll dev calls ErrorHandler.fresh).errors.length ≤ 100 ∧
      (ErrorHandler.logAll dev calls ErrorHandler.fresh).errors
        = (calls.map (fun c => ErrorHandler.errorEntry c.1 c.2.1 c.2.2)).drop
            (calls.length - 100) ∧
      (100 < calls.length →
        (ErrorHandler.logAll dev calls ErrorHandler.fresh).errors.length = 100) ∧
      ErrorHandler.getErrors (ErrorHandler.logAll dev calls ErrorHandler.fresh)
        = (calls.map (fun c => ErrorHandler.errorEntry c.1 c.2.1 c.2.2)).drop
            (calls.length - 100) ∧
      (ErrorHandler.clear (ErrorHandler.logAll dev calls ErrorHandler.fresh)).errors = [] ∧
      ∀ (heap : ErrorHandler.ArrayHeap) (buffer : Nat), buffer < heap.cells.length →
        heap.read buffer = (ErrorHandler.logAll dev calls ErrorHandler.fresh).errors →
        (ErrorHandler.getErrorsRef buffer heap).1 ≠ buffer ∧
          (ErrorHandler.getErrorsRef buffer heap).2.read
              (ErrorHandler.getErrorsRef buffer heap).1
            = (calls.map (fun c => ErrorHandler.errorEntry c.1 c.2.1 c.2.2)).drop
                (calls.length - 100) ∧
          ∀ elements : List Obj,
            ((ErrorHandler.getErrorsRef buffer heap).2.write
                (ErrorHandler.getErrorsRef buffer heap).1 elements).read buffer
              = (calls.map (fun c => ErrorHandler.errorEntry c.1 c.2.1 c.2.2)).drop
                  (calls.length - 100) := by
  have herrors := (logAll_fresh_errors dev calls).2
  refine ⟨?_, herrors, ?_, herrors, rfl, ?_⟩
  · rw [herrors, List.length_drop, List.length_map]
    omega
  · intro hlt
    rw [herrors, List.length_drop, List.length_map]
    omega
  · intro heap buffer hbuffer hread
    have hcopy := getErrorsRef_copy heap buffer hbuffer
    rw [hread, herrors] at hcopy
    exact hcopy

/-- C30 at a concrete input: two errors are logged, the buffer is the array at
reference 0; `getErrors` returns reference 1, and no mutation of that array
changes the two entries of the buffer. -/
theorem c30_error_log_bounded_witness :
    (ErrorHandler.getErrorsRef 0
        ⟨[(ErrorHandler.logAll false sampleLogCalls ErrorHandler.fresh).errors]⟩).1 = 1 ∧
      (ErrorHandler.logAll false sampleLogCalls ErrorHandler.fresh).errors.length = 2 ∧
      ∀ elements : List Obj,
        ((ErrorHandler.getErrorsRef 0
            ⟨[(ErrorHandler.logAll false sampleLogCalls ErrorHandler.fresh).errors]⟩).2.write
          (ErrorHandler.getErrorsRef 0
            ⟨[(ErrorHandler.logAll false sampleLogCalls ErrorHandler.fresh).errors]⟩).1
          elements).read 0
        = (sampleLogCalls.map (fun c => ErrorHandler.errorEntry c.1 c.2.1 c.2.2)).drop
            (sampleLogCalls.length - 100) :=
  ⟨rfl, rfl, ((c30_error_log_bounded false sampleLogCalls).2.2.2.2.2
    ⟨[(ErrorHandler.logAll false sampleLogCalls ErrorHandler.fresh).errors]⟩ 0
    (by decide) rfl).2.2⟩

end NebulaNet
